import Mathlib

/-!
# Reflective mirrors natives (runtime/lib/mirrors.cc)

A shallow embedding of the native entries of `mirrors.cc`.

* Heap objects are values that carry their address (`raw`); the C++ comparison
  of two `RawObject*` is comparison of addresses.
* A nullable handle of the VM (`Function::Handle()`, `Field::Handle()`,
  `String::Handle()`) is an `Option`; `Class` has its own `null` value so that
  the superclass walk is a structural recursion.
* Routines of the VM that `mirrors.cc` calls but does not define (member
  lookups, arity checks, name mangling, class and type accessors, the execution
  engine) are the fields of the structure `VM`.
* The mirror object built by the Dart constructor behind `CreateMirror` is the
  value `Instance.mirror` holding the mirror class name and the raw field tuple.
* A `MirrorReference` built by a factory routine is allocated at an address the
  routine receives as a parameter.
* The mutable part of the isolate is `Heap`: the static field slots and a log
  of the calls made into the execution engine and of the slot writes.
* `ASSERT` is a debug-only check and is not part of the embedding.
-/

namespace Mirrors

/-! ## Data model -/

/-- Address of a heap object. -/
abbrev RawObject := Nat

/-- A class handle: either `Class::null()` or a class with its superclass chain. -/
inductive Class where
  | null : Class
  | mk (raw : RawObject) (Name : String) (SuperClass : Class) : Class
deriving DecidableEq, Repr

/-- Handle test `klass.IsNull()`. -/
def Class.IsNull : Class → Bool
  | Class.null => true
  | Class.mk _ _ _ => false

/-- Accessor `klass.SuperClass()`. -/
def Class.SuperClass : Class → Class
  | Class.null => Class.null
  | Class.mk _ _ s => s

/-- Accessor `klass.Name()`. -/
def Class.Name : Class → String
  | Class.null => ""
  | Class.mk _ n _ => n

/-- Address of the class object. -/
def Class.raw : Class → RawObject
  | Class.null => 0
  | Class.mk r _ _ => r

/-- The receiver class followed by its superclasses, nearest first. -/
def Class.chain : Class → List Class
  | Class.null => []
  | Class.mk r n s => Class.mk r n s :: Class.chain s

/-- The members of `RawFunction::Kind` that `mirrors.cc` names, and the rest. -/
inductive FunctionKind where
  | kRegularFunction
  | kGetterFunction
  | kSetterFunction
  | kConstructor
  | kOther (tag : Nat)
deriving DecidableEq, Repr

/-- A function object with the attributes `mirrors.cc` reads. -/
structure Function where
  raw : RawObject
  name : String
  UserVisibleName : String
  kind : FunctionKind
  is_static : Bool
  is_abstract : Bool
  IsGetterFunction : Bool
  IsSetterFunction : Bool
  IsConstructor : Bool
  IsFactory : Bool
  num_fixed_parameters : Nat
  NumOptionalParameters : Nat
  NumImplicitParameters : Nat
  parameter_names : List String
deriving DecidableEq, Repr

/-- Accessor `function.NumParameters()`: one entry of the name array per parameter. -/
def Function.NumParameters (f : Function) : Nat := f.parameter_names.length

/-- Accessor `function.ParameterNameAt(i)`. -/
def Function.ParameterNameAt (f : Function) (i : Nat) : String := f.parameter_names.getD i ""

/-- A field object; its slot lives in the `Heap`. -/
structure Field where
  raw : RawObject
  name : String
  is_static : Bool
  is_final : Bool
  owner : Class
deriving DecidableEq, Repr

/-- A library object. -/
structure Library where
  raw : RawObject
  name : String
  url : String
deriving DecidableEq, Repr

/-- The declaration a mirror reference can wrap. -/
inductive Declaration where
  | ofClass (c : Class)
  | ofFunction (f : Function)
  | ofField (f : Field)
  | ofLibrary (l : Library)
deriving DecidableEq, Repr

/-- Address of the wrapped declaration. -/
def Declaration.raw : Declaration → RawObject
  | Declaration.ofClass c => c.raw
  | Declaration.ofFunction f => f.raw
  | Declaration.ofField f => f.raw
  | Declaration.ofLibrary l => l.raw

/-- A `MirrorReference` instance: its own address and the declaration it wraps. -/
structure MirrorReference where
  raw : RawObject
  referent : Declaration
deriving DecidableEq, Repr

/-- Allocation `MirrorReference::New(referent)` at the fresh address `addr`. -/
def MirrorReference.New (addr : RawObject) (referent : Declaration) : MirrorReference :=
  MirrorReference.mk addr referent

/-- Native `MirrorReference_equals`: `Bool::Get(a.referent() == b.referent())`. -/
def MirrorReference_equals (a b : MirrorReference) : Bool :=
  a.referent.raw == b.referent.raw

/-- A type handle (`AbstractType`): a type with its class, or a type parameter with its
name. The bound type-argument vector is read through `VM.arguments`. -/
structure AbstractType where
  raw : RawObject
  IsMalformed : Bool
  HasResolvedTypeClass : Bool
  IsTypeParameter : Bool
  type_class : Class
  name : String
deriving DecidableEq, Repr

/-! ## Values, errors and the mutable isolate state -/

/-- An instance handle: null, the two field sentinels, and the values the natives build. -/
inductive Instance where
  | null : Instance
  | sentinel : Instance
  | transition_sentinel : Instance
  | bool (b : Bool) : Instance
  | smi (value : Int) : Instance
  | str (s : String) : Instance
  | array (elements : List Instance) : Instance
  | type (type_class : Class) : Instance
  | mirrorReference (ref : MirrorReference) : Instance
  | obj (raw : RawObject) : Instance
  | abstractType (type : AbstractType) : Instance
  | mirror (mirror_class_name : String) (constructor_arguments : List Instance) : Instance

/-- An error object returned by the execution engine. -/
inductive Error where
  | ApiError (message : String) : Error
  | LanguageError (message : String) : Error
  | UnhandledException (exception : Instance) : Error
  | UnwindError (message : String) : Error

/-- What the execution engine hands back: a value or an error object. -/
inductive Object where
  | value (v : Instance) : Object
  | error (e : Error) : Object

/-- Descriptor built by `ArgumentsDescriptor::New(count)`: positional arguments only. -/
structure ArgumentsDescriptor where
  Count : Nat
deriving DecidableEq, Repr

/-- Constructor `ArgumentsDescriptor::New(num_arguments)`. -/
def ArgumentsDescriptor.New (num_arguments : Nat) : ArgumentsDescriptor :=
  ArgumentsDescriptor.mk num_arguments

/-- The members of `InvocationMirror::Call` used by the natives. -/
inductive Call where
  | kStatic
  | kConstructor
  | kTopLevel
deriving DecidableEq, Repr

/-- The members of `InvocationMirror::Type` used by the natives. -/
inductive InvType where
  | kMethod
  | kGetter
  | kSetter
deriving DecidableEq, Repr

/-- The exception kinds raised through `Exceptions::ThrowByType`. -/
inductive ExceptionType where
  | kNoSuchMethod
  | kMirroredCompilationError
deriving DecidableEq, Repr

/-- A call into the execution engine, or a write of a static field slot. -/
inductive Event where
  | InvokeFunction (function : Function) (arguments : List Instance) : Event
  | InvokeNoSuchMethod (receiver : Instance) (target_name : String)
      (arguments : List Instance) (arguments_descriptor : ArgumentsDescriptor) : Event
  | InvokeConstructor (klass : Class) (constructor : Function) (arguments : List Instance) : Event
  | set_value (field : Field) (value : Instance) : Event

/-- Static field slots, keyed by the address of the field object. -/
abbrev Slots := RawObject → Instance

/-- Mutable isolate state: the field slots and the log of engine calls and slot writes. -/
structure Heap where
  value : Slots
  log : List Event

/-- How a native entry ends. -/
inductive Outcome where
  | returned (v : Instance) : Outcome
  | thrown (type : ExceptionType) (args : List Instance) : Outcome
  | propagated (error : Error) : Outcome
  | nullHandleAccess : Outcome

/-- The routines of the VM that `mirrors.cc` calls and does not define. -/
structure VM where
  clazz : Instance → Class
  LookupDynamicFunctionAllowPrivate : Class → String → Option Function
  LookupInstanceField : Class → String → Option Field
  LookupStaticField : Class → String → Option Field
  LookupStaticFunctionAllowPrivate : Class → String → Option Function
  LookupFunctionAllowPrivate : Class → String → Option Function
  LibraryLookupFunctionAllowPrivate : Library → String → Option Function × Option String
  LibraryLookupFieldAllowPrivate : Library → String → Option Field × Option String
  AreValidArguments : Function → ArgumentsDescriptor → Bool
  AreValidArgumentCounts : Function → Nat → Nat → Bool
  GetterName : String → String
  SetterName : String → String
  EncodeType : Call → InvType → Int
  FinalizeType : Class → Instance → Instance
  InvokeFunction : Function → List Instance → Slots → Object × Slots
  InvokeNoSuchMethod : Instance → String → List Instance → ArgumentsDescriptor → Slots → Object × Slots
  InvokeConstructor : Class → Function → List Instance → Slots → Object × Slots
  arguments : AbstractType → Option (List AbstractType)
  type_parameters : Class → Option (List AbstractType)
  NumTypeParameters : Class → Nat
  IsSignatureClass : Class → Bool
  IsCanonicalSignatureClass : Class → Bool
  IsVoidClass : Class → Bool
  IsDynamicClass : Class → Bool
  ClassUserVisibleName : Class → String
  ParameterTypeAt : Function → Int → Instance
  EnsureIsFinalized : Class → Option Error
  fields : Class → Option (List Field)
  functions : Class → Option (List Function)
  FieldUserVisibleName : Field → String

/-- Engine call `DartEntry::InvokeFunction(function, arguments)`, logged. -/
def DartEntry.InvokeFunction (vm : VM) (function : Function) (arguments : List Instance)
    (st : Heap) : Object × Heap :=
  ((vm.InvokeFunction function arguments st.value).1,
   Heap.mk (vm.InvokeFunction function arguments st.value).2
     (st.log ++ [Event.InvokeFunction function arguments]))

/-- Engine call `DartEntry::InvokeNoSuchMethod(receiver, name, arguments, descriptor)`, logged. -/
def DartEntry.InvokeNoSuchMethod (vm : VM) (receiver : Instance) (target_name : String)
    (arguments : List Instance) (arguments_descriptor : ArgumentsDescriptor)
    (st : Heap) : Object × Heap :=
  ((vm.InvokeNoSuchMethod receiver target_name arguments arguments_descriptor st.value).1,
   Heap.mk (vm.InvokeNoSuchMethod receiver target_name arguments arguments_descriptor st.value).2
     (st.log ++ [Event.InvokeNoSuchMethod receiver target_name arguments arguments_descriptor]))

/-- Engine call `DartEntry::InvokeConstructor(klass, constructor, arguments)`, logged. -/
def DartEntry.InvokeConstructor (vm : VM) (klass : Class) (constructor : Function)
    (arguments : List Instance) (st : Heap) : Object × Heap :=
  ((vm.InvokeConstructor klass constructor arguments st.value).1,
   Heap.mk (vm.InvokeConstructor klass constructor arguments st.value).2
     (st.log ++ [Event.InvokeConstructor klass constructor arguments]))

/-- Slot read `field.value()`. -/
def Field.value (field : Field) (st : Heap) : Instance := st.value field.raw

/-- Slot write `field.set_value(value)`, logged. -/
def Field.set_value (field : Field) (value : Instance) (st : Heap) : Heap :=
  Heap.mk (fun r => if r = field.raw then value else st.value r)
    (st.log ++ [Event.set_value field value])

/-! ## Error raising -/

/-- Helper `ThrowMirroredCompilationError(message)`: one argument, the message. -/
def ThrowMirroredCompilationError (message : String) : Outcome :=
  Outcome.thrown ExceptionType.kMirroredCompilationError
    ((List.replicate 1 Instance.null).set 0 (Instance.str message))

/-- Helper `ThrowInvokeError(error)`. -/
def ThrowInvokeError (error : Error) : Outcome :=
  match error with
  | Error.LanguageError message => ThrowMirroredCompilationError message
  | e => Outcome.propagated e

/-- The tail shared by the natives: `if (result.IsError()) ThrowInvokeError(..); return result`. -/
def returnOrThrow (result : Object) : Outcome :=
  match result with
  | Object.error e => ThrowInvokeError e
  | Object.value v => Outcome.returned v

/-- The parameter-name array filled by the loop of `ThrowNoSuchMethod`. -/
def parameterNameArray (function : Function) : Instance :=
  Instance.array ((List.range function.NumParameters).map
    (fun i => Instance.str (function.ParameterNameAt i)))

/-- Helper `ThrowNoSuchMethod(receiver, function_name, function, call, type)`. -/
def ThrowNoSuchMethod (vm : VM) (receiver : Instance) (function_name : String)
    (function : Option Function) (call : Call) (type : InvType) : Outcome :=
  let invocation_type := Instance.smi (vm.EncodeType call type)
  let args := (((List.replicate 6 Instance.null).set 0 receiver).set 1
    (Instance.str function_name)).set 2 invocation_type
  match function with
  | some f => Outcome.thrown ExceptionType.kNoSuchMethod (args.set 5 (parameterNameArray f))
  | none => Outcome.thrown ExceptionType.kNoSuchMethod args

/-- Helper `RawTypeOfClass(cls)`: the finalized raw type of the class. -/
def RawTypeOfClass (vm : VM) (cls : Class) : Instance :=
  vm.FinalizeType cls (Instance.type cls)

/-- Overload `ThrowNoSuchMethod(klass, ..)`: the receiver slot is the raw type of the class. -/
def ThrowNoSuchMethodClass (vm : VM) (klass : Class) (function_name : String)
    (function : Option Function) (call : Call) (type : InvType) : Outcome :=
  ThrowNoSuchMethod vm (RawTypeOfClass vm klass) function_name function call type

/-- Overload `ThrowNoSuchMethod(library, ..)`: the receiver slot is the null instance. -/
def ThrowNoSuchMethodLibrary (vm : VM) (_library : Library) (function_name : String)
    (function : Option Function) (call : Call) (type : InvType) : Outcome :=
  ThrowNoSuchMethod vm Instance.null function_name function call type

/-- Predicate `FieldIsUninitialized(field)`: the slot holds `Object::sentinel()`. -/
def FieldIsUninitialized (field : Field) (st : Heap) : Bool :=
  match field.value st with
  | Instance.sentinel => true
  | _ => false

/-! ## Instance natives -/

/-- Helper `ReflectivelyInvokeDynamicFunction`: invoke the function, or noSuchMethod if it
is null; wrap a compilation error and propagate any other error. -/
def ReflectivelyInvokeDynamicFunction (vm : VM) (receiver : Instance)
    (function : Option Function) (target_name : String) (arguments : List Instance)
    (st : Heap) : Outcome × Heap :=
  match function with
  | none =>
    let arguments_descriptor := ArgumentsDescriptor.New arguments.length
    let r := DartEntry.InvokeNoSuchMethod vm receiver target_name arguments arguments_descriptor st
    (returnOrThrow r.1, r.2)
  | some f =>
    let r := DartEntry.InvokeFunction vm f arguments st
    (returnOrThrow r.1, r.2)

/-- The copy loop `for (i = 0; i < n; i++) args.SetAt(i + 1, positional_args.At(i))`. -/
def copyPositional (positional_args : List Instance) (args : List Instance) (n : Nat) :
    List Instance :=
  (List.range n).foldl
    (fun acc i => acc.set (i + 1) (positional_args.getD i Instance.null)) args

/-- The internal argument array: `Array::New(n + 1)`, the receiver at 0, then the copy loop. -/
def argumentsWithReceiver (reflectee : Instance) (positional_args : List Instance) :
    List Instance :=
  copyPositional positional_args
    ((List.replicate (positional_args.length + 1) Instance.null).set 0 reflectee)
    positional_args.length

/-- The loop of `InstanceMirror_invoke` (and of `invokeGetter`): look the name up in the
class, then in its superclass, until a function is found or the class handle is null. -/
def LookupDynamicFunctionInChain (vm : VM) (function_name : String) : Class → Option Function
  | Class.null => none
  | Class.mk r n s =>
    match vm.LookupDynamicFunctionAllowPrivate (Class.mk r n s) function_name with
    | some f => some f
    | none => LookupDynamicFunctionInChain vm function_name s

/-- The guard of `InstanceMirror_invoke`: a found function that does not accept the
arguments is replaced by `Function::null()`. -/
def checkValidArguments (vm : VM) (function : Option Function)
    (args_desc : ArgumentsDescriptor) : Option Function :=
  match function with
  | some f => if !vm.AreValidArguments f args_desc then none else some f
  | none => none

/-- Native `InstanceMirror_invoke`. -/
def InstanceMirror_invoke (vm : VM) (reflectee : Instance) (function_name : String)
    (positional_args : List Instance) (st : Heap) : Outcome × Heap :=
  let args := argumentsWithReceiver reflectee positional_args
  let args_desc := ArgumentsDescriptor.New args.length
  let function := LookupDynamicFunctionInChain vm function_name (vm.clazz reflectee)
  let function := checkValidArguments vm function args_desc
  ReflectivelyInvokeDynamicFunction vm reflectee function function_name args st

/-- Result of the loop of `InstanceMirror_invokeSetter`: it either leaves through the
final-field error or ends with a setter handle (possibly null). -/
inductive SetterLookup where
  | finalField : SetterLookup
  | setter (function : Option Function) : SetterLookup
deriving DecidableEq

/-- Test `!field.IsNull() && field.is_final()`. -/
def isNonNullFinal (field : Option Field) : Bool :=
  match field with
  | some f => f.is_final
  | none => false

/-- The loop of `InstanceMirror_invokeSetter`: in each class, first the instance field of
the plain name, then the setter function of the mangled name. -/
def LookupSetterInChain (vm : VM) (setter_name internal_setter_name : String) :
    Class → SetterLookup
  | Class.null => SetterLookup.setter none
  | Class.mk r n s =>
    if isNonNullFinal (vm.LookupInstanceField (Class.mk r n s) setter_name) then
      SetterLookup.finalField
    else
      match vm.LookupDynamicFunctionAllowPrivate (Class.mk r n s) internal_setter_name with
      | some f => SetterLookup.setter (some f)
      | none => LookupSetterInChain vm setter_name internal_setter_name s

/-- Message `String::NewFormatted("%s: cannot set final field '%s'.", native, name)`. -/
def cannotSetFinalField (native name : String) : String :=
  native ++ ": cannot set final field \x27" ++ name ++ "\x27."

/-- Message `String::NewFormatted("%s: cannot set final top-level variable '%s'.", ..)`. -/
def cannotSetFinalTopLevel (native name : String) : String :=
  native ++ ": cannot set final top-level variable \x27" ++ name ++ "\x27."

/-- Native `InstanceMirror_invokeSetter`. -/
def InstanceMirror_invokeSetter (vm : VM) (reflectee : Instance) (setter_name : String)
    (value : Instance) (st : Heap) : Outcome × Heap :=
  let internal_setter_name := vm.SetterName setter_name
  match LookupSetterInChain vm setter_name internal_setter_name (vm.clazz reflectee) with
  | SetterLookup.finalField =>
    (ThrowMirroredCompilationError
      (cannotSetFinalField "InstanceMirror_invokeSetter" setter_name), st)
  | SetterLookup.setter setter =>
    let args := ((List.replicate 2 Instance.null).set 0 reflectee).set 1 value
    ReflectivelyInvokeDynamicFunction vm reflectee setter internal_setter_name args st

/-! ## Class natives -/

/-- Native `ClassMirror_invoke`. -/
def ClassMirror_invoke (vm : VM) (klass : Class) (function_name : String)
    (positional_args : List Instance) (st : Heap) : Outcome × Heap :=
  let number_of_arguments := positional_args.length
  match vm.LookupStaticFunctionAllowPrivate klass function_name with
  | none =>
    (ThrowNoSuchMethodClass vm klass function_name none Call.kStatic InvType.kMethod, st)
  | some function =>
    if !vm.AreValidArgumentCounts function number_of_arguments 0 then
      (ThrowNoSuchMethodClass vm klass function_name (some function)
        Call.kStatic InvType.kMethod, st)
    else
      let r := DartEntry.InvokeFunction vm function positional_args st
      (returnOrThrow r.1, r.2)

/-- The getter branch of `ClassMirror_invokeGetter`, taken when the field is null or
uninitialized. -/
def ClassMirror_invokeGetter_viaGetter (vm : VM) (klass : Class) (getter_name : String)
    (st : Heap) : Outcome × Heap :=
  let internal_getter_name := vm.GetterName getter_name
  match vm.LookupStaticFunctionAllowPrivate klass internal_getter_name with
  | none =>
    (ThrowNoSuchMethodClass vm klass getter_name none Call.kStatic InvType.kGetter, st)
  | some getter =>
    let r := DartEntry.InvokeFunction vm getter [] st
    (returnOrThrow r.1, r.2)

/-- Native `ClassMirror_invokeGetter`. -/
def ClassMirror_invokeGetter (vm : VM) (klass : Class) (getter_name : String)
    (st : Heap) : Outcome × Heap :=
  match vm.LookupStaticField klass getter_name with
  | none => ClassMirror_invokeGetter_viaGetter vm klass getter_name st
  | some field =>
    if FieldIsUninitialized field st then
      ClassMirror_invokeGetter_viaGetter vm klass getter_name st
    else
      (Outcome.returned (field.value st), st)

/-- Native `ClassMirror_invokeSetter`. -/
def ClassMirror_invokeSetter (vm : VM) (klass : Class) (setter_name : String)
    (value : Instance) (st : Heap) : Outcome × Heap :=
  match vm.LookupStaticField klass setter_name with
  | none =>
    let internal_setter_name := vm.SetterName setter_name
    match vm.LookupStaticFunctionAllowPrivate klass internal_setter_name with
    | none =>
      (ThrowNoSuchMethodClass vm klass setter_name none Call.kStatic InvType.kSetter, st)
    | some setter =>
      let args := (List.replicate 1 Instance.null).set 0 value
      let r := DartEntry.InvokeFunction vm setter args st
      (returnOrThrow r.1, r.2)
  | some field =>
    if field.is_final then
      (ThrowMirroredCompilationError
        (cannotSetFinalField "ClassMirror_invokeSetter" setter_name), st)
    else
      (Outcome.returned value, field.set_value value st)

/-- The label built by `ClassMirror_invokeConstructor`: class name, a dot, and the
constructor name when its handle is not null. -/
def internalConstructorName (klass : Class) (constructor_name : Option String) : String :=
  let klass_name := klass.Name
  let internal_constructor_name := klass_name ++ "."
  match constructor_name with
  | some c => internal_constructor_name ++ c
  | none => internal_constructor_name

/-- Native `ClassMirror_invokeConstructor`. The name handle is tested for null by the
native, so it is an `Option`. -/
def ClassMirror_invokeConstructor (vm : VM) (klass : Class) (constructor_name : Option String)
    (positional_args : List Instance) (st : Heap) : Outcome × Heap :=
  let number_of_arguments := positional_args.length
  let internal_constructor_name := internalConstructorName klass constructor_name
  match vm.LookupFunctionAllowPrivate klass internal_constructor_name with
  | none =>
    (ThrowNoSuchMethodClass vm klass internal_constructor_name none
      Call.kConstructor InvType.kMethod, st)
  | some constructor =>
    if (!constructor.IsConstructor && !constructor.IsFactory) ||
        !vm.AreValidArgumentCounts constructor
          (number_of_arguments + constructor.NumImplicitParameters) 0 then
      let constructor : Option Function := none
      (ThrowNoSuchMethodClass vm klass internal_constructor_name constructor
        Call.kConstructor InvType.kMethod, st)
    else
      let r := DartEntry.InvokeConstructor vm klass constructor positional_args st
      (returnOrThrow r.1, r.2)

/-! ## Library natives -/

/-- Native `LibraryMirror_invoke`. -/
def LibraryMirror_invoke (vm : VM) (library : Library) (function_name : String)
    (positional_args : List Instance) (st : Heap) : Outcome × Heap :=
  let number_of_arguments := positional_args.length
  let found := vm.LibraryLookupFunctionAllowPrivate library function_name
  match found.1, found.2 with
  | none, some ambiguity_error_msg => (ThrowMirroredCompilationError ambiguity_error_msg, st)
  | none, none =>
    (ThrowNoSuchMethodLibrary vm library function_name none Call.kTopLevel InvType.kMethod, st)
  | some function, _ =>
    if !vm.AreValidArgumentCounts function number_of_arguments 0 then
      (ThrowNoSuchMethodLibrary vm library function_name (some function)
        Call.kTopLevel InvType.kMethod, st)
    else
      let r := DartEntry.InvokeFunction vm function positional_args st
      (returnOrThrow r.1, r.2)

/-- The first part of `LibraryMirror_invokeGetter`: the getter handle and the ambiguity
message after the two `if` branches that may look a getter up. -/
def LibraryMirror_invokeGetter_getter (vm : VM) (library : Library) (getter_name : String)
    (field : Option Field) (ambiguity_error_msg : Option String) (st : Heap) :
    Option Function × Option String :=
  match field, ambiguity_error_msg with
  | none, none =>
    vm.LibraryLookupFunctionAllowPrivate library (vm.GetterName getter_name)
  | none, some msg => (none, some msg)
  | some f, msg =>
    if FieldIsUninitialized f st then
      (vm.LookupStaticFunctionAllowPrivate f.owner (vm.GetterName getter_name), msg)
    else
      (none, msg)

/-- Native `LibraryMirror_invokeGetter`. -/
def LibraryMirror_invokeGetter (vm : VM) (library : Library) (getter_name : String)
    (st : Heap) : Outcome × Heap :=
  let found := vm.LibraryLookupFieldAllowPrivate library getter_name
  let field := found.1
  let looked := LibraryMirror_invokeGetter_getter vm library getter_name field found.2 st
  match looked.1 with
  | some getter =>
    let r := DartEntry.InvokeFunction vm getter [] st
    (returnOrThrow r.1, r.2)
  | none =>
    match field with
    | some f => (Outcome.returned (f.value st), st)
    | none =>
      match looked.2 with
      | none =>
        (ThrowNoSuchMethodLibrary vm library getter_name none Call.kTopLevel InvType.kGetter, st)
      | some ambiguity_error_msg => (ThrowMirroredCompilationError ambiguity_error_msg, st)

/-- Native `LibraryMirror_invokeSetter`. When the field handle is null and an ambiguity
message is set, the first `if` is skipped and `field.is_final()` reads through the null
handle: that outcome is `Outcome.nullHandleAccess`. -/
def LibraryMirror_invokeSetter (vm : VM) (library : Library) (setter_name : String)
    (value : Instance) (st : Heap) : Outcome × Heap :=
  let found := vm.LibraryLookupFieldAllowPrivate library setter_name
  match found.1, found.2 with
  | none, none =>
    let internal_setter_name := vm.SetterName setter_name
    let looked := vm.LibraryLookupFunctionAllowPrivate library internal_setter_name
    match looked.1 with
    | none =>
      match looked.2 with
      | none =>
        (ThrowNoSuchMethodLibrary vm library setter_name none Call.kTopLevel InvType.kSetter, st)
      | some ambiguity_error_msg => (ThrowMirroredCompilationError ambiguity_error_msg, st)
    | some setter =>
      let args := (List.replicate 1 Instance.null).set 0 value
      let r := DartEntry.InvokeFunction vm setter args st
      (returnOrThrow r.1, r.2)
  | none, some _ => (Outcome.nullHandleAccess, st)
  | some field, _ =>
    if field.is_final then
      (ThrowMirroredCompilationError
        (cannotSetFinalTopLevel "LibraryMirror_invokeSetter" setter_name), st)
    else
      (Outcome.returned value, field.set_value value st)

/-! ## Mirror factory -/

/-- Symbol `Symbols::_LocalParameterMirrorImpl()`. -/
def Symbols._LocalParameterMirrorImpl : String := "_LocalParameterMirrorImpl"

/-- Symbol `Symbols::_LocalTypeVariableMirrorImpl()`. -/
def Symbols._LocalTypeVariableMirrorImpl : String := "_LocalTypeVariableMirrorImpl"

/-- Symbol `Symbols::_LocalTypedefMirrorImpl()`. -/
def Symbols._LocalTypedefMirrorImpl : String := "_LocalTypedefMirrorImpl"

/-- Symbol `Symbols::_LocalFunctionTypeMirrorImpl()`. -/
def Symbols._LocalFunctionTypeMirrorImpl : String := "_LocalFunctionTypeMirrorImpl"

/-- Symbol `Symbols::_LocalMethodMirrorImpl()`. -/
def Symbols._LocalMethodMirrorImpl : String := "_LocalMethodMirrorImpl"

/-- Symbol `Symbols::_LocalClassMirrorImpl()`. -/
def Symbols._LocalClassMirrorImpl : String := "_LocalClassMirrorImpl"

/-- Symbol `Symbols::_SpecialTypeMirrorImpl()`. -/
def Symbols._SpecialTypeMirrorImpl : String := "_SpecialTypeMirrorImpl"

/-- Symbol `Symbols::Void()`, the marker name of `void`. -/
def Symbols.Void : String := "void"

/-- Symbol `Symbols::Dynamic()`, the marker name of `dynamic`. -/
def Symbols.Dynamic : String := "dynamic"

/-- Helper `CreateMirror(mirror_class_name, constructor_arguments)`: the mirror object the
Dart constructor builds from the raw field tuple. -/
def CreateMirror (mirror_class_name : String) (constructor_arguments : List Instance) :
    Instance :=
  Instance.mirror mirror_class_name constructor_arguments

/-- One round of the loop of `CreateParameterMirrorList`, on the pair of the reused
argument array and the result array. -/
def CreateParameterMirrorList_step (func : Function)
    (state : List Instance × List Instance) (i : Nat) : List Instance × List Instance :=
  let args := (state.1.set 1 (Instance.smi i)).set 2
    (if i ≥ func.num_fixed_parameters then Instance.bool true else Instance.bool false)
  (args, state.2.set i (CreateMirror Symbols._LocalParameterMirrorImpl args))

/-- The number of declared parameters computed by `CreateParameterMirrorList`. -/
def CreateParameterMirrorList_param_cnt (func : Function) : Int :=
  (func.num_fixed_parameters : Int) - (func.NumImplicitParameters : Int) +
    (func.NumOptionalParameters : Int)

/-- Helper `CreateParameterMirrorList(func)`; the one `MirrorReference` is allocated at
`addr`. -/
def CreateParameterMirrorList (addr : RawObject) (func : Function) : Instance :=
  let param_cnt := CreateParameterMirrorList_param_cnt func
  let results := List.replicate param_cnt.toNat Instance.null
  let args := (List.replicate 3 Instance.null).set 0
    (Instance.mirrorReference (MirrorReference.New addr (Declaration.ofFunction func)))
  Instance.array
    ((List.range param_cnt.toNat).foldl (CreateParameterMirrorList_step func) (args, results)).2

/-- Native `ParameterMirror_type`: the type of the parameter at the mirror position,
counted after the implicit parameters. -/
def ParameterMirror_type (vm : VM) (func : Function) (pos : Int) : Instance :=
  vm.ParameterTypeAt func ((func.NumImplicitParameters : Int) + pos)

/-- Helper `CreateTypeVariableMirror(param, owner_mirror)`. -/
def CreateTypeVariableMirror (param : AbstractType) (owner_mirror : Instance) : Instance :=
  let args := (((List.replicate 3 Instance.null).set 0 (Instance.abstractType param)).set 1
    (Instance.str param.name)).set 2 owner_mirror
  CreateMirror Symbols._LocalTypeVariableMirrorImpl args

/-- One round of the loop of `CreateTypeVariableList`. -/
def CreateTypeVariableList_step (args : List AbstractType) (result : List Instance)
    (i : Nat) : List Instance :=
  match args.get? i with
  | some type =>
    (result.set (2 * i) (Instance.str type.name)).set (2 * i + 1) (Instance.abstractType type)
  | none => result

/-- Helper `CreateTypeVariableList(cls)`. -/
def CreateTypeVariableList (vm : VM) (cls : Class) : Instance :=
  match vm.type_parameters cls with
  | none => Instance.array []
  | some args =>
    let result := List.replicate (args.length * 2) Instance.null
    Instance.array ((List.range args.length).foldl (CreateTypeVariableList_step args) result)

/-- Helper `CreateTypedefMirror(cls, owner_mirror)`. -/
def CreateTypedefMirror (vm : VM) (addr : RawObject) (cls : Class) (owner_mirror : Instance) :
    Instance :=
  let args := (((List.replicate 3 Instance.null).set 0
    (Instance.mirrorReference (MirrorReference.New addr (Declaration.ofClass cls)))).set 1
    (Instance.str (vm.ClassUserVisibleName cls))).set 2 owner_mirror
  CreateMirror Symbols._LocalTypedefMirrorImpl args

/-- Helper `CreateFunctionTypeMirror(cls, type)`. -/
def CreateFunctionTypeMirror (addr : RawObject) (cls : Class) (type : Instance) : Instance :=
  let args := ((List.replicate 2 Instance.null).set 0
    (Instance.mirrorReference (MirrorReference.New addr (Declaration.ofClass cls)))).set 1 type
  CreateMirror Symbols._LocalFunctionTypeMirrorImpl args

/-- Helper `CreateMethodMirror(func, owner_mirror)`. -/
def CreateMethodMirror (addr : RawObject) (func : Function) (owner_mirror : Instance) :
    Instance :=
  let args := List.replicate 12 Instance.null
  let args := args.set 0
    (Instance.mirrorReference (MirrorReference.New addr (Declaration.ofFunction func)))
  let args := args.set 1 (Instance.str func.UserVisibleName)
  let args := args.set 2 owner_mirror
  let args := args.set 3 (if func.is_static then Instance.bool true else Instance.bool false)
  let args := args.set 4 (if func.is_abstract then Instance.bool true else Instance.bool false)
  let args := args.set 5
    (if func.IsGetterFunction then Instance.bool true else Instance.bool false)
  let args := args.set 6
    (if func.IsSetterFunction then Instance.bool true else Instance.bool false)
  let args := args.set 7 (if func.IsConstructor then Instance.bool true else Instance.bool false)
  let args := args.set 8 (Instance.bool false)
  let args := args.set 9 (Instance.bool false)
  let args := args.set 10 (Instance.bool false)
  let args := args.set 11 (Instance.bool false)
  CreateMirror Symbols._LocalMethodMirrorImpl args

/-- Helper `CreateClassMirror(cls, type, owner_mirror)`. -/
def CreateClassMirror (vm : VM) (addr : RawObject) (cls : Class) (type : Instance)
    (owner_mirror : Instance) : Instance :=
  if vm.IsSignatureClass cls then
    if vm.IsCanonicalSignatureClass cls then
      CreateFunctionTypeMirror addr cls type
    else
      CreateTypedefMirror vm addr cls owner_mirror
  else
    let is_generic :=
      if vm.NumTypeParameters cls = 0 then Instance.bool false else Instance.bool true
    let args := ((((List.replicate 4 Instance.null).set 0
      (Instance.mirrorReference (MirrorReference.New addr (Declaration.ofClass cls)))).set 1
      type).set 2 (Instance.str (vm.ClassUserVisibleName cls))).set 3 is_generic
    CreateMirror Symbols._LocalClassMirrorImpl args

/-- Helper `CreateTypeMirror(type)`. The result is `none` when the routine runs into
`UNREACHABLE()` and does not return. -/
def CreateTypeMirror (vm : VM) (addr : RawObject) (type : AbstractType) : Option Instance :=
  if type.HasResolvedTypeClass then
    let cls := type.type_class
    if vm.IsVoidClass cls then
      some (CreateMirror Symbols._SpecialTypeMirrorImpl
        ((List.replicate 1 Instance.null).set 0 (Instance.str Symbols.Void)))
    else if vm.IsDynamicClass cls then
      some (CreateMirror Symbols._SpecialTypeMirrorImpl
        ((List.replicate 1 Instance.null).set 0 (Instance.str Symbols.Dynamic)))
    else
      some (CreateClassMirror vm addr cls (Instance.abstractType type) Instance.null)
  else if type.IsTypeParameter then
    some (CreateTypeVariableMirror type Instance.null)
  else
    none

/-- Vector read `args.TypeAt(index)`; `none` when the index is out of range. -/
def TypeAt (args : List AbstractType) (index : Int) : Option AbstractType :=
  if 0 ≤ index then args.get? index.toNat else none

/-- The loop `for (i = 0; i < n; i++) result.SetAt(i, entry(i))` on a fresh array of
length `n`; `none` when the computation of an entry does not return. -/
def fillArray (n : Nat) (entry : Nat → Option Instance) : Option (List Instance) :=
  (List.range n).foldl
    (fun result i =>
      match result, entry i with
      | some r, some m => some (r.set i m)
      | _, _ => none)
    (some (List.replicate n Instance.null))

/-- The body of the loop of `ClassMirror_type_arguments`: the type mirror of the bound
argument at `i + num_inherited_args`, its reference allocated at `addr i`. -/
def ClassMirror_type_arguments_entry (vm : VM) (addr : Nat → RawObject)
    (args : List AbstractType) (num_inherited_args : Int) (i : Nat) : Option Instance :=
  match TypeAt args ((i : Int) + num_inherited_args) with
  | some arg_type => CreateTypeMirror vm (addr i) arg_type
  | none => none

/-- Native `ClassMirror_type_arguments`; `none` when it does not return. -/
def ClassMirror_type_arguments (vm : VM) (addr : Nat → RawObject) (type : AbstractType) :
    Option Instance :=
  match vm.arguments type with
  | none => some (Instance.array [])
  | some args =>
    let cls := type.type_class
    let num_params := vm.NumTypeParameters cls
    let num_inherited_args : Int := (args.length : Int) - (num_params : Int)
    (fillArray num_params
      (ClassMirror_type_arguments_entry vm addr args num_inherited_args)).map Instance.array

/-! ## Member lists -/

/-- Symbol `Symbols::_LocalVariableMirrorImpl()`. -/
def Symbols._LocalVariableMirrorImpl : String := "_LocalVariableMirrorImpl"

/-- Helper `CreateVariableMirror(field, owner_mirror)`. -/
def CreateVariableMirror (vm : VM) (addr : RawObject) (field : Field)
    (owner_mirror : Instance) : Instance :=
  let field_ref := Instance.mirrorReference (MirrorReference.New addr (Declaration.ofField field))
  let name := Instance.str (vm.FieldUserVisibleName field)
  let args := List.replicate 6 Instance.null
  let args := args.set 0 field_ref
  let args := args.set 1 name
  let args := args.set 2 owner_mirror
  let args := args.set 3 Instance.null
  let args := args.set 4 (if field.is_static then Instance.bool true else Instance.bool false)
  let args := args.set 5 (if field.is_final then Instance.bool true else Instance.bool false)
  CreateMirror Symbols._LocalVariableMirrorImpl args

/-- The kind test of the function loop of `ClassMirror_members`. -/
def isMemberKind (func : Function) : Bool :=
  func.kind == FunctionKind.kRegularFunction ||
    func.kind == FunctionKind.kGetterFunction ||
    func.kind == FunctionKind.kSetterFunction

/-- The kind test of the loop of `ClassMirror_constructors`. -/
def isConstructorKind (func : Function) : Bool :=
  func.kind == FunctionKind.kConstructor

/-- The field loop of `ClassMirror_members`: one variable mirror is added per field; the
reference of the mirror added as number `j` of the native is allocated at `addr j`. -/
def addVariableMirrors (vm : VM) (addr : Nat → RawObject) (owner_mirror : Instance)
    (fields : List Field) (member_mirrors : List Instance) : List Instance :=
  fields.foldl
    (fun mirrors field =>
      mirrors ++ [CreateVariableMirror vm (addr mirrors.length) field owner_mirror])
    member_mirrors

/-- The function loop of `ClassMirror_members` and `ClassMirror_constructors`: a method
mirror is added for each function that passes the kind test. -/
def addMethodMirrors (addr : Nat → RawObject) (owner_mirror : Instance)
    (kindTest : Function → Bool) (functions : List Function)
    (mirrors : List Instance) : List Instance :=
  functions.foldl
    (fun mirrors func =>
      if kindTest func then
        mirrors ++ [CreateMethodMirror (addr mirrors.length) func owner_mirror]
      else mirrors)
    mirrors

/-- Native `ClassMirror_members`. The growable array it returns is the array of its
elements; a null field or function list is read through a null handle. -/
def ClassMirror_members (vm : VM) (addr : Nat → RawObject) (owner_mirror : Instance)
    (klass : Class) : Outcome :=
  match vm.EnsureIsFinalized klass with
  | some error => ThrowInvokeError error
  | none =>
    match vm.fields klass, vm.functions klass with
    | some fields, some functions =>
      let member_mirrors : List Instance := []
      let member_mirrors := addVariableMirrors vm addr owner_mirror fields member_mirrors
      let member_mirrors :=
        addMethodMirrors addr owner_mirror isMemberKind functions member_mirrors
      Outcome.returned (Instance.array member_mirrors)
    | _, _ => Outcome.nullHandleAccess

/-- Native `ClassMirror_constructors`. -/
def ClassMirror_constructors (vm : VM) (addr : Nat → RawObject) (owner_mirror : Instance)
    (klass : Class) : Outcome :=
  match vm.EnsureIsFinalized klass with
  | some error => ThrowInvokeError error
  | none =>
    match vm.functions klass with
    | some functions =>
      let constructor_mirrors : List Instance := []
      Outcome.returned (Instance.array
        (addMethodMirrors addr owner_mirror isConstructorKind functions constructor_mirrors))
    | none => Outcome.nullHandleAccess

/-! ## Sample data for C1 -/

/-- A top-level function stored at address 7. -/
def sampleFunction : Function :=
  Function.mk 7 "f" "f" FunctionKind.kRegularFunction true false false false false false 0 0 0 []

/-- A function of the same shape stored at address 8. -/
def sampleFunctionCopy : Function :=
  Function.mk 8 "f" "f" FunctionKind.kRegularFunction true false false false false false 0 0 0 []

/-! ## Sample programs -/

/-- Sample encoding of an invocation category. -/
def sampleEncodeType (call : Call) (type : InvType) : Int :=
  (match call with
    | Call.kStatic => 4
    | Call.kConstructor => 8
    | Call.kTopLevel => 12) +
  (match type with
    | InvType.kMethod => 0
    | InvType.kGetter => 1
    | InvType.kSetter => 2)

/-- A VM whose program declares nothing; an invoked function returns its own address. -/
def emptyVM : VM where
  clazz := fun _ => Class.null
  LookupDynamicFunctionAllowPrivate := fun _ _ => none
  LookupInstanceField := fun _ _ => none
  LookupStaticField := fun _ _ => none
  LookupStaticFunctionAllowPrivate := fun _ _ => none
  LookupFunctionAllowPrivate := fun _ _ => none
  LibraryLookupFunctionAllowPrivate := fun _ _ => (none, none)
  LibraryLookupFieldAllowPrivate := fun _ _ => (none, none)
  AreValidArguments := fun f d => d.Count == f.parameter_names.length
  AreValidArgumentCounts := fun f n named => named == 0 && n == f.parameter_names.length
  GetterName := fun n => "get:" ++ n
  SetterName := fun n => "set:" ++ n
  EncodeType := sampleEncodeType
  FinalizeType := fun _ t => t
  InvokeFunction := fun f _ slots => (Object.value (Instance.smi f.raw), slots)
  InvokeNoSuchMethod := fun _ _ _ _ slots => (Object.value Instance.null, slots)
  InvokeConstructor := fun _ _ _ slots => (Object.value (Instance.obj 100), slots)
  arguments := fun _ => none
  type_parameters := fun _ => none
  NumTypeParameters := fun _ => 0
  IsSignatureClass := fun _ => false
  IsCanonicalSignatureClass := fun _ => false
  IsVoidClass := fun _ => false
  IsDynamicClass := fun _ => false
  ClassUserVisibleName := fun c => c.Name
  ParameterTypeAt := fun _ _ => Instance.null
  EnsureIsFinalized := fun _ => none
  fields := fun _ => some []
  functions := fun _ => some []
  FieldUserVisibleName := fun f => f.name

/-- The initial isolate state: every slot null, nothing logged. -/
def emptyHeap : Heap := Heap.mk (fun _ => Instance.null) []

/-- Superclass `B`. -/
def classB : Class := Class.mk 1 "B" Class.null

/-- Subclass `S extends B`. -/
def classS : Class := Class.mk 2 "S" classB

/-- Method `f` of `S`: the receiver is its only parameter. -/
def methodSf : Function :=
  Function.mk 10 "f" "f" FunctionKind.kRegularFunction false false false false false false
    1 0 1 ["this"]

/-- Method `f` of `B`: the receiver and one more parameter. -/
def methodBf : Function :=
  Function.mk 11 "f" "f" FunctionKind.kRegularFunction false false false false false false
    2 0 1 ["this", "x"]

/-- A program in which both `S` and its superclass `B` declare `f`; every instance is an `S`. -/
def overrideVM : VM :=
  { emptyVM with
    clazz := fun _ => classS
    LookupDynamicFunctionAllowPrivate := fun c n =>
      if n = "f" then
        (if c = classS then some methodSf else if c = classB then some methodBf else none)
      else none }

/-- Class `A`, without superclass. -/
def classA : Class := Class.mk 3 "A" Class.null

/-- Static method `A.g(x)`. -/
def staticAg : Function :=
  Function.mk 12 "g" "g" FunctionKind.kRegularFunction true false false false false false
    1 0 0 ["x"]

/-- A library. -/
def sampleLibrary : Library := Library.mk 30 "lib" "file:///lib.dart"

/-- Top-level function `h(a, b)`. -/
def topLevelH : Function :=
  Function.mk 13 "h" "h" FunctionKind.kRegularFunction true false false false false false
    2 0 0 ["a", "b"]

/-- A program with the static method `A.g(x)` and the top-level function `h(a, b)`. -/
def staticVM : VM :=
  { emptyVM with
    LookupStaticFunctionAllowPrivate := fun c n =>
      if c = classA ∧ n = "g" then some staticAg else none
    LibraryLookupFunctionAllowPrivate := fun l n =>
      if l = sampleLibrary ∧ n = "h" then (some topLevelH, none) else (none, none) }

/-- Generative constructor `A(x)`, labelled `A.`: receiver, phase and `x`. -/
def constructorA : Function :=
  Function.mk 20 "A." "A" FunctionKind.kConstructor false false false false true false
    3 0 2 ["this", "phase", "x"]

/-- A program in which class `A` declares the constructor `A(x)`. -/
def constructorVM : VM :=
  { emptyVM with
    LookupFunctionAllowPrivate := fun c n =>
      if c = classA ∧ n = "A." then some constructorA else none }

/-- Final instance field `x` of `A`. -/
def finalFieldX : Field := Field.mk 40 "x" false true classA

/-- Final static field `s` of `A`. -/
def finalFieldS : Field := Field.mk 41 "s" true true classA

/-- The top-level class of the sample library. -/
def topLevelClass : Class := Class.mk 4 "::" Class.null

/-- Final top-level variable `t`. -/
def finalFieldT : Field := Field.mk 42 "t" true true topLevelClass

/-- A program with a final instance field, a final static field and a final top-level
variable; every instance is an `A`. -/
def finalVM : VM :=
  { emptyVM with
    clazz := fun _ => classA
    LookupInstanceField := fun c n => if c = classA ∧ n = "x" then some finalFieldX else none
    LookupStaticField := fun c n => if c = classA ∧ n = "s" then some finalFieldS else none
    LibraryLookupFieldAllowPrivate := fun l n =>
      if l = sampleLibrary ∧ n = "t" then (some finalFieldT, none) else (none, none) }

/-- A program whose library sees two imported declarations for each of `h`, `v` and the
getter of `w`: the lookups return no declaration and set the ambiguity message. -/
def ambiguousVM : VM :=
  { emptyVM with
    LibraryLookupFunctionAllowPrivate := fun l n =>
      if l = sampleLibrary ∧ n = "h" then (none, some "ambiguous reference to h")
      else if l = sampleLibrary ∧ n = "get:w" then (none, some "ambiguous reference to w")
      else (none, none)
    LibraryLookupFieldAllowPrivate := fun l n =>
      if l = sampleLibrary ∧ n = "v" then (none, some "ambiguous reference to v")
      else (none, none) }

/-- Implicit static getter of `u`. -/
def getterU : Function :=
  Function.mk 14 "get:u" "u" (FunctionKind.kOther 0) true false false false false false
    0 0 0 []

/-- The class of `void`. -/
def voidClass : Class := Class.mk 5 "void" Class.null

/-- The class of `dynamic`. -/
def dynamicClass : Class := Class.mk 6 "dynamic" Class.null

/-- Generic class `G<T, U>`. -/
def classG : Class := Class.mk 8 "G" Class.null

/-- The type `void`. -/
def voidType : AbstractType := AbstractType.mk 60 false true false voidClass "void"

/-- The type `dynamic`. -/
def dynamicType : AbstractType := AbstractType.mk 61 false true false dynamicClass "dynamic"

/-- The type `A`. -/
def typeA : AbstractType := AbstractType.mk 62 false true false classA "A"

/-- Type parameter `T` of `G`. -/
def paramT : AbstractType := AbstractType.mk 63 false false true Class.null "T"

/-- Type parameter `U` of `G`. -/
def paramU : AbstractType := AbstractType.mk 64 false false true Class.null "U"

/-- The type `G<A, T>` whose vector also holds one inherited argument in front. -/
def typeG : AbstractType := AbstractType.mk 65 false true false classG "G"

/-- A program with `void`, `dynamic`, the class `A` and the generic class `G<T, U>`; the
argument vector of the sample type of `G` is one inherited argument followed by the two
own arguments `A` and `T`. -/
def typeVM : VM :=
  { emptyVM with
    IsVoidClass := fun c => c = voidClass
    IsDynamicClass := fun c => c = dynamicClass
    NumTypeParameters := fun c => if c = classG then 2 else 0
    type_parameters := fun c => if c = classG then some [paramT, paramU] else none
    arguments := fun t => if t = typeG then some [dynamicType, typeA, paramT] else none }

/-- Instance method `m(a, [b])`: the receiver is implicit, `a` is fixed, `b` optional. -/
def methodOptional : Function :=
  Function.mk 15 "m" "m" FunctionKind.kRegularFunction false false false false false false
    2 1 1 ["this", "a", "b"]

/-- Static method `B.n()`. -/
def staticBn : Function :=
  Function.mk 16 "n" "n" FunctionKind.kRegularFunction true false false false false false
    0 0 0 []

/-- Static field `B.n`. -/
def staticFieldBn : Field := Field.mk 44 "n" true false classB

/-- A program in which the superclass `B` has static members under the name `n` (a
method, a field, a getter and a setter) and its subclass `S` has none. -/
def inheritedStaticVM : VM :=
  { emptyVM with
    LookupStaticFunctionAllowPrivate := fun c name =>
      if c = classB ∧ (name = "n" ∨ name = "get:n" ∨ name = "set:n") then some staticBn
      else none
    LookupStaticField := fun c name =>
      if c = classB ∧ name = "n" then some staticFieldBn else none }

/-- Setter function `set:x` declared in `S`. -/
def setterSx : Function :=
  Function.mk 17 "set:x" "x=" FunctionKind.kSetterFunction false false false true false false
    2 0 1 ["this", "value"]

/-- Final instance field `x` declared in `B`. -/
def finalFieldBx : Field := Field.mk 45 "x" false true classB

/-- Final instance field `x` declared in `S`. -/
def finalFieldSx : Field := Field.mk 46 "x" false true classS

/-- A program in which `S` declares the setter of `x` and its superclass `B` a final
field `x`; every instance is an `S`. -/
def setterShadowsVM : VM :=
  { emptyVM with
    clazz := fun _ => classS
    LookupDynamicFunctionAllowPrivate := fun c name =>
      if c = classS ∧ name = "set:x" then some setterSx else none
    LookupInstanceField := fun c name =>
      if c = classB ∧ name = "x" then some finalFieldBx else none }

/-- A program in which `S` declares both a final field `x` and the setter of `x`; every
instance is an `S`. -/
def fieldShadowsVM : VM :=
  { emptyVM with
    clazz := fun _ => classS
    LookupDynamicFunctionAllowPrivate := fun c name =>
      if c = classS ∧ name = "set:x" then some setterSx else none
    LookupInstanceField := fun c name =>
      if c = classS ∧ name = "x" then some finalFieldSx else none }

/-- A program in which the finalized class `A` has two fields and four functions: a
regular method, a constructor, an implicit getter and a setter. -/
def memberVM : VM :=
  { emptyVM with
    fields := fun c => if c = classA then some [finalFieldX, finalFieldS] else some []
    functions := fun c =>
      if c = classA then some [staticAg, constructorA, getterU, setterSx] else some [] }

/-! ## Theorems -/

/-! ### Shared lemmas -/

/-- After `k` rounds the copy loop has filled the slots `1..k`. -/
theorem copyPositional_filled (reflectee : Instance) (ps : List Instance) :
    ∀ k, k ≤ ps.length →
      copyPositional ps ((List.replicate (ps.length + 1) Instance.null).set 0 reflectee) k =
        reflectee :: (ps.take k ++ List.replicate (ps.length - k) Instance.null) := by
  intro k
  induction k with
  | zero =>
    intro _
    simp [copyPositional, List.replicate_succ]
  | succ k ih =>
    intro hk
    have hk1 : k ≤ ps.length := Nat.le_of_succ_le hk
    have hlt : k < ps.length := hk
    have hstep : copyPositional ps
        ((List.replicate (ps.length + 1) Instance.null).set 0 reflectee) (k + 1) =
        (copyPositional ps
          ((List.replicate (ps.length + 1) Instance.null).set 0 reflectee) k).set (k + 1)
          (ps.getD k Instance.null) := by
      simp [copyPositional, List.range_succ, List.foldl_append]
    rw [hstep, ih hk1, List.set_cons_succ, List.set_append]
    have hlen : (List.take k ps).length = k := by simp [hk1]
    have hrep : ps.length - k = (ps.length - (k + 1)) + 1 := by omega
    simp only [hlen, Nat.lt_irrefl, if_false, Nat.sub_self]
    rw [hrep, List.replicate_succ, List.set_cons_zero, List.getD_eq_getElem ps Instance.null hlt]
    have htake : List.take (k + 1) ps = List.take k ps ++ [ps[k]] := by
      rw [List.take_succ, List.getElem?_eq_getElem hlt]
      rfl
    rw [htake, List.append_assoc]
    rfl

/-- The internal argument array is the receiver followed by the positional arguments. -/
theorem argumentsWithReceiver_eq (reflectee : Instance) (ps : List Instance) :
    argumentsWithReceiver reflectee ps = reflectee :: ps := by
  unfold argumentsWithReceiver
  rw [copyPositional_filled reflectee ps ps.length (Nat.le_refl _)]
  simp

/-- The loop of `ThrowNoSuchMethod` copies the parameter names in declaration order. -/
theorem parameterNameArray_eq (f : Function) :
    parameterNameArray f = Instance.array (f.parameter_names.map Instance.str) := by
  unfold parameterNameArray Function.NumParameters Function.ParameterNameAt
  congr 1
  apply List.ext_getElem
  · simp
  · intro i h1 h2
    simp at h1
    simp [List.getD_eq_getElem, h1]

/-- The superclass walk returns the declaration of the first class of the chain that
has one. -/
theorem LookupDynamicFunctionInChain_find (vm : VM) (function_name : String) :
    ∀ (k C : Class) (f : Function),
      k.chain.find? (fun c => (vm.LookupDynamicFunctionAllowPrivate c function_name).isSome)
        = some C →
      vm.LookupDynamicFunctionAllowPrivate C function_name = some f →
      LookupDynamicFunctionInChain vm function_name k = some f := by
  intro k
  induction k with
  | null =>
    intro C f h _
    simp [Class.chain] at h
  | mk r n s ih =>
    intro C f hfind hf
    unfold LookupDynamicFunctionInChain
    cases hl : vm.LookupDynamicFunctionAllowPrivate (Class.mk r n s) function_name with
    | some g =>
      simp only [Class.chain, List.find?_cons, hl, Option.isSome_some] at hfind
      have hC : Class.mk r n s = C := Option.some.inj hfind
      rw [← hC, hl] at hf
      simpa using hf
    | none =>
      simp only [Class.chain, List.find?_cons, hl, Option.isSome_none] at hfind
      simpa using ih C f hfind hf

/-- C1: `MirrorReference_equals(a, b)` is true exactly when both referents are the
same heap entity (same address). It is reflexive, symmetric and transitive, and two
references allocated at different addresses for one declaration are distinct
instances that compare equal. -/
theorem MirrorReference_equals_identity :
    (∀ a b : MirrorReference, MirrorReference_equals a b = true ↔ a.referent.raw = b.referent.raw) ∧
    (∀ a : MirrorReference, MirrorReference_equals a a = true) ∧
    (∀ a b : MirrorReference, MirrorReference_equals a b = true → MirrorReference_equals b a = true) ∧
    (∀ a b c : MirrorReference, MirrorReference_equals a b = true →
      MirrorReference_equals b c = true → MirrorReference_equals a c = true) ∧
    (∀ (d : Declaration) (p q : RawObject), p ≠ q →
      MirrorReference.New p d ≠ MirrorReference.New q d ∧
      MirrorReference_equals (MirrorReference.New p d) (MirrorReference.New q d) = true) ∧
    MirrorReference_equals (MirrorReference.New 1 (Declaration.ofFunction sampleFunction))
      (MirrorReference.New 2 (Declaration.ofFunction sampleFunctionCopy)) = false := by
  refine ⟨?_, ?_, ?_, ?_, ?_, ?_⟩
  · intro a b
    simp [MirrorReference_equals]
  · intro a
    simp [MirrorReference_equals]
  · intro a b h
    simp only [MirrorReference_equals, beq_iff_eq] at h ⊢
    exact h.symm
  · intro a b c hab hbc
    simp only [MirrorReference_equals, beq_iff_eq] at hab hbc ⊢
    exact hab.trans hbc
  · intro d p q hpq
    constructor
    · intro h
      apply hpq
      simpa [MirrorReference.New] using h
    · simp [MirrorReference_equals, MirrorReference.New]
  · decide

/-- C2: when `C` is the first class, walking from the receiver class up the superclass
chain, that declares a dynamic function named `function_name`, the walk of
`InstanceMirror_invoke` ends with the function `f` of `C`; the native then hands to
`ReflectivelyInvokeDynamicFunction` either `f` or, when `f` does not accept the
arguments, no function, so every function invocation the call adds to the log is an
invocation of `f`, never of a declaration further up the chain. -/
theorem InstanceMirror_invoke_first_match (vm : VM) (reflectee : Instance)
    (function_name : String) (positional_args : List Instance) (st : Heap)
    (C : Class) (f : Function)
    (hfind : (vm.clazz reflectee).chain.find?
      (fun c => (vm.LookupDynamicFunctionAllowPrivate c function_name).isSome) = some C)
    (hf : vm.LookupDynamicFunctionAllowPrivate C function_name = some f) :
    LookupDynamicFunctionInChain vm function_name (vm.clazz reflectee) = some f ∧
    InstanceMirror_invoke vm reflectee function_name positional_args st =
      ReflectivelyInvokeDynamicFunction vm reflectee
        (if vm.AreValidArguments f (ArgumentsDescriptor.New (positional_args.length + 1))
          then some f else none)
        function_name (reflectee :: positional_args) st ∧
    (∀ g a, Event.InvokeFunction g a ∈
        (InstanceMirror_invoke vm reflectee function_name positional_args st).2.log →
      Event.InvokeFunction g a ∈ st.log ∨ g = f) := by
  have hwalk := LookupDynamicFunctionInChain_find vm function_name (vm.clazz reflectee) C f hfind hf
  have hinv : InstanceMirror_invoke vm reflectee function_name positional_args st =
      ReflectivelyInvokeDynamicFunction vm reflectee
        (if vm.AreValidArguments f (ArgumentsDescriptor.New (positional_args.length + 1))
          then some f else none)
        function_name (reflectee :: positional_args) st := by
    unfold InstanceMirror_invoke
    simp only [argumentsWithReceiver_eq, hwalk, checkValidArguments, List.length_cons]
    cases vm.AreValidArguments f (ArgumentsDescriptor.New (positional_args.length + 1)) <;> simp
  refine ⟨hwalk, hinv, ?_⟩
  intro g a hmem
  rw [hinv] at hmem
  cases hv : vm.AreValidArguments f (ArgumentsDescriptor.New (positional_args.length + 1)) with
  | true =>
    simp only [hv, if_true, ReflectivelyInvokeDynamicFunction, DartEntry.InvokeFunction,
      List.mem_append, List.mem_singleton] at hmem
    rcases hmem with h | h
    · exact Or.inl h
    · injection h with h1 _
      exact Or.inr h1
  | false =>
    simp only [hv, Bool.false_eq_true, if_false, ReflectivelyInvokeDynamicFunction,
      DartEntry.InvokeNoSuchMethod, List.mem_append, List.mem_singleton] at hmem
    rcases hmem with h | h
    · exact Or.inl h
    · simp at h

/-- Witness for C2: `S` overrides the `f` of `B`; invoking `f` with no positional
argument on an `S` instance logs one invocation, of the function of `S`. -/
theorem InstanceMirror_invoke_first_match_witness :
    methodSf ≠ methodBf ∧
    overrideVM.LookupDynamicFunctionAllowPrivate classB "f" = some methodBf ∧
    (InstanceMirror_invoke overrideVM (Instance.obj 50) "f" [] emptyHeap).2.log =
      [Event.InvokeFunction methodSf [Instance.obj 50]] ∧
    (LookupDynamicFunctionInChain overrideVM "f" (overrideVM.clazz (Instance.obj 50))
        = some methodSf ∧
      InstanceMirror_invoke overrideVM (Instance.obj 50) "f" [] emptyHeap =
        ReflectivelyInvokeDynamicFunction overrideVM (Instance.obj 50)
          (if overrideVM.AreValidArguments methodSf
              (ArgumentsDescriptor.New (([] : List Instance).length + 1))
            then some methodSf else none)
          "f" (Instance.obj 50 :: []) emptyHeap ∧
      (∀ g a, Event.InvokeFunction g a ∈
          (InstanceMirror_invoke overrideVM (Instance.obj 50) "f" [] emptyHeap).2.log →
        Event.InvokeFunction g a ∈ emptyHeap.log ∨ g = methodSf)) :=
  ⟨by decide, by decide, by rfl,
    InstanceMirror_invoke_first_match overrideVM (Instance.obj 50) "f" [] emptyHeap
      classS methodSf (by decide) (by decide)⟩

/-- The result translation never raises NoSuchMethod by itself. -/
theorem returnOrThrow_ne_noSuchMethod (r : Object) (a : List Instance) :
    returnOrThrow r ≠ Outcome.thrown ExceptionType.kNoSuchMethod a := by
  cases r with
  | value v => simp [returnOrThrow]
  | error e => cases e <;> simp [returnOrThrow, ThrowInvokeError, ThrowMirroredCompilationError]

/-- C3: when the walk of `InstanceMirror_invoke` finds no function, or finds one that does
not accept the `n + 1` arguments, no function is invoked: the native calls the
no-such-method fallback once, with the receiver, the name and the array holding the
receiver followed by the positional arguments, and its outcome is the translated result
of that call, in both cases alike; the native itself raises no NoSuchMethod. -/
theorem InstanceMirror_invoke_wrong_arity (vm : VM) (reflectee : Instance)
    (function_name : String) (positional_args : List Instance) (st : Heap)
    (h : LookupDynamicFunctionInChain vm function_name (vm.clazz reflectee) = none ∨
      ∃ f, LookupDynamicFunctionInChain vm function_name (vm.clazz reflectee) = some f ∧
        vm.AreValidArguments f (ArgumentsDescriptor.New (positional_args.length + 1)) = false) :
    InstanceMirror_invoke vm reflectee function_name positional_args st =
      (returnOrThrow (vm.InvokeNoSuchMethod reflectee function_name
          (reflectee :: positional_args)
          (ArgumentsDescriptor.New (positional_args.length + 1)) st.value).1,
        Heap.mk (vm.InvokeNoSuchMethod reflectee function_name
          (reflectee :: positional_args)
          (ArgumentsDescriptor.New (positional_args.length + 1)) st.value).2
          (st.log ++ [Event.InvokeNoSuchMethod reflectee function_name
            (reflectee :: positional_args)
            (ArgumentsDescriptor.New (positional_args.length + 1))])) ∧
    (∀ a, (InstanceMirror_invoke vm reflectee function_name positional_args st).1 ≠
      Outcome.thrown ExceptionType.kNoSuchMethod a) := by
  have hnone : checkValidArguments vm
      (LookupDynamicFunctionInChain vm function_name (vm.clazz reflectee))
      (ArgumentsDescriptor.New (positional_args.length + 1)) = none := by
    rcases h with h | ⟨f, hf, hbad⟩
    · simp [h, checkValidArguments]
    · simp [hf, checkValidArguments, hbad]
  have hinv : InstanceMirror_invoke vm reflectee function_name positional_args st =
      (returnOrThrow (vm.InvokeNoSuchMethod reflectee function_name
          (reflectee :: positional_args)
          (ArgumentsDescriptor.New (positional_args.length + 1)) st.value).1,
        Heap.mk (vm.InvokeNoSuchMethod reflectee function_name
          (reflectee :: positional_args)
          (ArgumentsDescriptor.New (positional_args.length + 1)) st.value).2
          (st.log ++ [Event.InvokeNoSuchMethod reflectee function_name
            (reflectee :: positional_args)
            (ArgumentsDescriptor.New (positional_args.length + 1))])) := by
    unfold InstanceMirror_invoke
    simp only [argumentsWithReceiver_eq, List.length_cons, hnone,
      ReflectivelyInvokeDynamicFunction, DartEntry.InvokeNoSuchMethod]
  refine ⟨hinv, ?_⟩
  intro a
  rw [hinv]
  exact returnOrThrow_ne_noSuchMethod _ a

/-- Witness for C3: `S.f` takes the receiver only; invoked with one positional argument
it is not called and the fallback of the receiver runs. -/
theorem InstanceMirror_invoke_wrong_arity_witness :
    InstanceMirror_invoke overrideVM (Instance.obj 50) "f" [Instance.smi 1] emptyHeap =
      (returnOrThrow (overrideVM.InvokeNoSuchMethod (Instance.obj 50) "f"
          (Instance.obj 50 :: [Instance.smi 1])
          (ArgumentsDescriptor.New ([Instance.smi 1].length + 1)) emptyHeap.value).1,
        Heap.mk (overrideVM.InvokeNoSuchMethod (Instance.obj 50) "f"
          (Instance.obj 50 :: [Instance.smi 1])
          (ArgumentsDescriptor.New ([Instance.smi 1].length + 1)) emptyHeap.value).2
          (emptyHeap.log ++ [Event.InvokeNoSuchMethod (Instance.obj 50) "f"
            (Instance.obj 50 :: [Instance.smi 1])
            (ArgumentsDescriptor.New ([Instance.smi 1].length + 1))])) ∧
    (∀ a, (InstanceMirror_invoke overrideVM (Instance.obj 50) "f" [Instance.smi 1]
      emptyHeap).1 ≠ Outcome.thrown ExceptionType.kNoSuchMethod a) :=
  InstanceMirror_invoke_wrong_arity overrideVM (Instance.obj 50) "f" [Instance.smi 1]
    emptyHeap (Or.inr ⟨methodSf, by decide, by decide⟩)

/-- C4: when `ClassMirror_invoke` (resp. `LibraryMirror_invoke`) finds a static (resp.
top-level) function `f` of the given name that does not accept the supplied number of
positional arguments, the isolate state is left as it was (nothing is invoked) and
NoSuchMethod is raised with the raw type of the class (resp. null) in slot 0, the name in
slot 1, the encoded category in slot 2 and the parameter names of `f`, in declaration
order, in slot 5. -/
theorem static_invoke_wrong_arity (vm : VM) (function_name : String)
    (positional_args : List Instance) (st : Heap) (f : Function)
    (hbad : vm.AreValidArgumentCounts f positional_args.length 0 = false) :
    (∀ klass, vm.LookupStaticFunctionAllowPrivate klass function_name = some f →
      ClassMirror_invoke vm klass function_name positional_args st =
        (Outcome.thrown ExceptionType.kNoSuchMethod
          [RawTypeOfClass vm klass, Instance.str function_name,
            Instance.smi (vm.EncodeType Call.kStatic InvType.kMethod),
            Instance.null, Instance.null,
            Instance.array (f.parameter_names.map Instance.str)], st)) ∧
    (∀ library msg, vm.LibraryLookupFunctionAllowPrivate library function_name = (some f, msg) →
      LibraryMirror_invoke vm library function_name positional_args st =
        (Outcome.thrown ExceptionType.kNoSuchMethod
          [Instance.null, Instance.str function_name,
            Instance.smi (vm.EncodeType Call.kTopLevel InvType.kMethod),
            Instance.null, Instance.null,
            Instance.array (f.parameter_names.map Instance.str)], st)) := by
  constructor
  · intro klass hfound
    simp [ClassMirror_invoke, hfound, hbad, ThrowNoSuchMethodClass, ThrowNoSuchMethod,
      parameterNameArray_eq, List.replicate]
  · intro library msg hfound
    simp [LibraryMirror_invoke, hfound, hbad, ThrowNoSuchMethodLibrary, ThrowNoSuchMethod,
      parameterNameArray_eq, List.replicate]

/-- Witness for C4: `A.g(x)` and the top-level `h(a, b)` called with no argument. -/
theorem static_invoke_wrong_arity_witness :
    ClassMirror_invoke staticVM classA "g" [] emptyHeap =
      (Outcome.thrown ExceptionType.kNoSuchMethod
        [RawTypeOfClass staticVM classA, Instance.str "g",
          Instance.smi (staticVM.EncodeType Call.kStatic InvType.kMethod),
          Instance.null, Instance.null,
          Instance.array (staticAg.parameter_names.map Instance.str)], emptyHeap) ∧
    LibraryMirror_invoke staticVM sampleLibrary "h" [] emptyHeap =
      (Outcome.thrown ExceptionType.kNoSuchMethod
        [Instance.null, Instance.str "h",
          Instance.smi (staticVM.EncodeType Call.kTopLevel InvType.kMethod),
          Instance.null, Instance.null,
          Instance.array (topLevelH.parameter_names.map Instance.str)], emptyHeap) :=
  ⟨(static_invoke_wrong_arity staticVM "g" [] emptyHeap staticAg (by decide)).1 classA
      (by decide),
    (static_invoke_wrong_arity staticVM "h" [] emptyHeap topLevelH (by decide)).2
      sampleLibrary none (by decide)⟩

/-- Counterexample for C5 as stated: the constructor `A(x)` is found under the label
`A.`, it is a constructor, it does not accept zero arguments, and the NoSuchMethod raised
has null in the parameter-name slot, not the names of the constructor. -/
theorem ClassMirror_invokeConstructor_names_counterexample :
    constructorVM.LookupFunctionAllowPrivate classA
      (internalConstructorName classA (some "")) = some constructorA ∧
    constructorA.IsConstructor = true ∧
    constructorVM.AreValidArgumentCounts constructorA
      (([] : List Instance).length + constructorA.NumImplicitParameters) 0 = false ∧
    ClassMirror_invokeConstructor constructorVM classA (some "") [] emptyHeap =
      (Outcome.thrown ExceptionType.kNoSuchMethod
        [Instance.type classA, Instance.str "A.", Instance.smi 8,
          Instance.null, Instance.null, Instance.null], emptyHeap) ∧
    Instance.array (constructorA.parameter_names.map Instance.str) ≠ Instance.null := by
  refine ⟨by decide, by decide, by decide, by rfl, by simp⟩

/-- C5 (amended): when `ClassMirror_invokeConstructor` finds a constructor or factory
under the internal label whose arity does not accept the supplied arguments, it drops the
function before raising: the NoSuchMethod failure has null in the parameter-name slot,
exactly the failure raised when nothing is found under the label, and nothing is invoked. -/
theorem ClassMirror_invokeConstructor_wrong_arity (vm : VM) (klass : Class)
    (constructor_name : Option String) (positional_args : List Instance) (st : Heap)
    (c : Function)
    (hfound : vm.LookupFunctionAllowPrivate klass
      (internalConstructorName klass constructor_name) = some c)
    (_hkind : c.IsConstructor = true ∨ c.IsFactory = true)
    (hbad : vm.AreValidArgumentCounts c
      (positional_args.length + c.NumImplicitParameters) 0 = false) :
    ClassMirror_invokeConstructor vm klass constructor_name positional_args st =
      (Outcome.thrown ExceptionType.kNoSuchMethod
        [RawTypeOfClass vm klass,
          Instance.str (internalConstructorName klass constructor_name),
          Instance.smi (vm.EncodeType Call.kConstructor InvType.kMethod),
          Instance.null, Instance.null, Instance.null], st) ∧
    ClassMirror_invokeConstructor vm klass constructor_name positional_args st =
      (ThrowNoSuchMethodClass vm klass (internalConstructorName klass constructor_name) none
        Call.kConstructor InvType.kMethod, st) := by
  constructor <;>
    simp [ClassMirror_invokeConstructor, hfound, hbad, ThrowNoSuchMethodClass,
      ThrowNoSuchMethod, List.replicate]

/-- Witness for C5 (amended): the constructor `A(x)` called with no argument. -/
theorem ClassMirror_invokeConstructor_wrong_arity_witness :
    ClassMirror_invokeConstructor constructorVM classA (some "") [] emptyHeap =
      (Outcome.thrown ExceptionType.kNoSuchMethod
        [RawTypeOfClass constructorVM classA,
          Instance.str (internalConstructorName classA (some "")),
          Instance.smi (constructorVM.EncodeType Call.kConstructor InvType.kMethod),
          Instance.null, Instance.null, Instance.null], emptyHeap) ∧
    ClassMirror_invokeConstructor constructorVM classA (some "") [] emptyHeap =
      (ThrowNoSuchMethodClass constructorVM classA (internalConstructorName classA (some ""))
        none Call.kConstructor InvType.kMethod, emptyHeap) :=
  ClassMirror_invokeConstructor_wrong_arity constructorVM classA (some "") [] emptyHeap
    constructorA (by decide) (Or.inl (by decide)) (by decide)

/-- C6: a write to a final field through any of the three setter natives ends in a
mirrored-compilation error whose message contains the name, and leaves the isolate state
(slots and log) as it was: for `InstanceMirror_invokeSetter` when the class of the
receiver declares the final instance field, for `ClassMirror_invokeSetter` when the class
has the final static field, for `LibraryMirror_invokeSetter` when the library lookup
returns the final field. -/
theorem final_field_write_rejected (vm : VM) (setter_name : String) (value : Instance)
    (st : Heap) (field : Field) (hfinal : field.is_final = true) :
    (∀ reflectee, vm.clazz reflectee ≠ Class.null →
      vm.LookupInstanceField (vm.clazz reflectee) setter_name = some field →
      InstanceMirror_invokeSetter vm reflectee setter_name value st =
        (Outcome.thrown ExceptionType.kMirroredCompilationError
          [Instance.str (cannotSetFinalField "InstanceMirror_invokeSetter" setter_name)], st)) ∧
    (∀ klass, vm.LookupStaticField klass setter_name = some field →
      ClassMirror_invokeSetter vm klass setter_name value st =
        (Outcome.thrown ExceptionType.kMirroredCompilationError
          [Instance.str (cannotSetFinalField "ClassMirror_invokeSetter" setter_name)], st)) ∧
    (∀ library msg, vm.LibraryLookupFieldAllowPrivate library setter_name = (some field, msg) →
      LibraryMirror_invokeSetter vm library setter_name value st =
        (Outcome.thrown ExceptionType.kMirroredCompilationError
          [Instance.str (cannotSetFinalTopLevel "LibraryMirror_invokeSetter" setter_name)], st)) ∧
    (∀ native, ∃ pre post, cannotSetFinalField native setter_name = pre ++ setter_name ++ post) ∧
    (∀ native, ∃ pre post,
      cannotSetFinalTopLevel native setter_name = pre ++ setter_name ++ post) := by
  refine ⟨?_, ?_, ?_, ?_, ?_⟩
  · intro reflectee hk hfound
    unfold InstanceMirror_invokeSetter
    cases hc : vm.clazz reflectee with
    | null => exact absurd hc hk
    | mk r n s =>
      rw [hc] at hfound
      simp [LookupSetterInChain, hfound, isNonNullFinal, hfinal,
        ThrowMirroredCompilationError, List.replicate]
  · intro klass hfound
    simp [ClassMirror_invokeSetter, hfound, hfinal, ThrowMirroredCompilationError,
      List.replicate]
  · intro library msg hfound
    simp [LibraryMirror_invokeSetter, hfound, hfinal, ThrowMirroredCompilationError,
      List.replicate]
  · intro native
    exact ⟨native ++ ": cannot set final field \x27", "\x27.", by
      simp [cannotSetFinalField, String.append_assoc]⟩
  · intro native
    exact ⟨native ++ ": cannot set final top-level variable \x27", "\x27.", by
      simp [cannotSetFinalTopLevel, String.append_assoc]⟩

/-- Witness for C6: the final fields `x` (instance), `s` (static) and `t` (top-level). -/
theorem final_field_write_rejected_witness :
    InstanceMirror_invokeSetter finalVM (Instance.obj 50) "x" (Instance.smi 1) emptyHeap =
      (Outcome.thrown ExceptionType.kMirroredCompilationError
        [Instance.str (cannotSetFinalField "InstanceMirror_invokeSetter" "x")], emptyHeap) ∧
    ClassMirror_invokeSetter finalVM classA "s" (Instance.smi 1) emptyHeap =
      (Outcome.thrown ExceptionType.kMirroredCompilationError
        [Instance.str (cannotSetFinalField "ClassMirror_invokeSetter" "s")], emptyHeap) ∧
    LibraryMirror_invokeSetter finalVM sampleLibrary "t" (Instance.smi 1) emptyHeap =
      (Outcome.thrown ExceptionType.kMirroredCompilationError
        [Instance.str (cannotSetFinalTopLevel "LibraryMirror_invokeSetter" "t")], emptyHeap) :=
  ⟨(final_field_write_rejected finalVM "x" (Instance.smi 1) emptyHeap finalFieldX
      (by decide)).1 (Instance.obj 50) (by decide) (by decide),
    (final_field_write_rejected finalVM "s" (Instance.smi 1) emptyHeap finalFieldS
      (by decide)).2.1 classA (by decide),
    (final_field_write_rejected finalVM "t" (Instance.smi 1) emptyHeap finalFieldT
      (by decide)).2.2.1 sampleLibrary none (by decide)⟩

/-- C7: when the function lookup of `LibraryMirror_invoke`, the field lookup of
`LibraryMirror_invokeGetter`, or (after an unambiguous miss of the field) its getter
lookup returns no declaration and sets the ambiguity message, the native raises a
mirrored-compilation error carrying that message and leaves the isolate state as it was:
no function is invoked. -/
theorem library_ambiguity_raised (vm : VM) (library : Library) (name : String)
    (msg : String) :
    (vm.LibraryLookupFunctionAllowPrivate library name = (none, some msg) →
      ∀ positional_args st, LibraryMirror_invoke vm library name positional_args st =
        (Outcome.thrown ExceptionType.kMirroredCompilationError [Instance.str msg], st)) ∧
    (vm.LibraryLookupFieldAllowPrivate library name = (none, some msg) →
      ∀ st, LibraryMirror_invokeGetter vm library name st =
        (Outcome.thrown ExceptionType.kMirroredCompilationError [Instance.str msg], st)) ∧
    (vm.LibraryLookupFieldAllowPrivate library name = (none, none) →
      vm.LibraryLookupFunctionAllowPrivate library (vm.GetterName name) = (none, some msg) →
      ∀ st, LibraryMirror_invokeGetter vm library name st =
        (Outcome.thrown ExceptionType.kMirroredCompilationError [Instance.str msg], st)) := by
  refine ⟨?_, ?_, ?_⟩
  · intro h positional_args st
    simp [LibraryMirror_invoke, h, ThrowMirroredCompilationError, List.replicate]
  · intro h st
    simp [LibraryMirror_invokeGetter, LibraryMirror_invokeGetter_getter, h,
      ThrowMirroredCompilationError, List.replicate]
  · intro h1 h2 st
    simp [LibraryMirror_invokeGetter, LibraryMirror_invokeGetter_getter, h1, h2,
      ThrowMirroredCompilationError, List.replicate]

/-- Witness for C7: the ambiguous function `h`, the ambiguous variable `v` and the
ambiguous getter of `w`. -/
theorem library_ambiguity_raised_witness :
    LibraryMirror_invoke ambiguousVM sampleLibrary "h" [Instance.smi 1] emptyHeap =
      (Outcome.thrown ExceptionType.kMirroredCompilationError
        [Instance.str "ambiguous reference to h"], emptyHeap) ∧
    LibraryMirror_invokeGetter ambiguousVM sampleLibrary "v" emptyHeap =
      (Outcome.thrown ExceptionType.kMirroredCompilationError
        [Instance.str "ambiguous reference to v"], emptyHeap) ∧
    LibraryMirror_invokeGetter ambiguousVM sampleLibrary "w" emptyHeap =
      (Outcome.thrown ExceptionType.kMirroredCompilationError
        [Instance.str "ambiguous reference to w"], emptyHeap) :=
  ⟨(library_ambiguity_raised ambiguousVM sampleLibrary "h" "ambiguous reference to h").1
      (by decide) [Instance.smi 1] emptyHeap,
    (library_ambiguity_raised ambiguousVM sampleLibrary "v" "ambiguous reference to v").2.1
      (by decide) emptyHeap,
    (library_ambiguity_raised ambiguousVM sampleLibrary "w" "ambiguous reference to w").2.2
      (by decide) (by decide) emptyHeap⟩

/-- C8 (code evaluated at the failing input): the field lookup for `v` is ambiguous, and
`LibraryMirror_invokeSetter` does not raise the ambiguity error: it skips the setter
branch and reads `is_final` through the null field handle. -/
theorem LibraryMirror_invokeSetter_ambiguous_field :
    ambiguousVM.LibraryLookupFieldAllowPrivate sampleLibrary "v" =
      (none, some "ambiguous reference to v") ∧
    LibraryMirror_invokeSetter ambiguousVM sampleLibrary "v" (Instance.smi 1) emptyHeap =
      (Outcome.nullHandleAccess, emptyHeap) ∧
    (LibraryMirror_invokeSetter ambiguousVM sampleLibrary "v" (Instance.smi 1) emptyHeap).1 ≠
      Outcome.thrown ExceptionType.kMirroredCompilationError
        [Instance.str "ambiguous reference to v"] := by
  have h : LibraryMirror_invokeSetter ambiguousVM sampleLibrary "v" (Instance.smi 1)
      emptyHeap = (Outcome.nullHandleAccess, emptyHeap) := by rfl
  refine ⟨by decide, h, ?_⟩
  rw [h]
  simp

/-- C11: the result translation shared by the invoking natives returns a value as it
is, turns a language error into a mirrored-compilation error whose only argument is the
message of that error, and propagates every other error object as it is; the outcome of
`ReflectivelyInvokeDynamicFunction` is this translation of what the engine returned. -/
theorem invoke_result_translation :
    (∀ v, returnOrThrow (Object.value v) = Outcome.returned v) ∧
    (∀ message, ThrowInvokeError (Error.LanguageError message) =
      Outcome.thrown ExceptionType.kMirroredCompilationError [Instance.str message]) ∧
    (∀ message, returnOrThrow (Object.error (Error.LanguageError message)) =
      Outcome.thrown ExceptionType.kMirroredCompilationError [Instance.str message]) ∧
    (∀ e, (∀ message, e ≠ Error.LanguageError message) →
      ThrowInvokeError e = Outcome.propagated e ∧
      returnOrThrow (Object.error e) = Outcome.propagated e) ∧
    (∀ message, returnOrThrow (Object.error (Error.ApiError message)) =
      Outcome.propagated (Error.ApiError message)) ∧
    (∀ exception, returnOrThrow (Object.error (Error.UnhandledException exception)) =
      Outcome.propagated (Error.UnhandledException exception)) ∧
    (∀ message, returnOrThrow (Object.error (Error.UnwindError message)) =
      Outcome.propagated (Error.UnwindError message)) ∧
    (∀ (vm : VM) receiver f target_name arguments st,
      (ReflectivelyInvokeDynamicFunction vm receiver (some f) target_name arguments st).1 =
        returnOrThrow (vm.InvokeFunction f arguments st.value).1) ∧
    (∀ (vm : VM) receiver target_name arguments st,
      (ReflectivelyInvokeDynamicFunction vm receiver none target_name arguments st).1 =
        returnOrThrow (vm.InvokeNoSuchMethod receiver target_name arguments
          (ArgumentsDescriptor.New arguments.length) st.value).1) := by
  refine ⟨fun _ => rfl, fun _ => rfl, fun _ => rfl, ?_, fun _ => rfl, fun _ => rfl,
    fun _ => rfl, fun _ _ _ _ _ _ => rfl, fun _ _ _ _ _ => rfl⟩
  intro e he
  cases e with
  | LanguageError message => exact absurd rfl (he message)
  | ApiError message => exact ⟨rfl, rfl⟩
  | UnhandledException exception => exact ⟨rfl, rfl⟩
  | UnwindError message => exact ⟨rfl, rfl⟩

/-- C15: the raw field tuple built by `CreateMethodMirror` has 12 entries: a reference to
the function, its user-visible name, the owner mirror, the flags static, abstract,
getter, setter and constructor of the function, and four entries that are always false. -/
theorem CreateMethodMirror_tuple (addr : RawObject) (func : Function)
    (owner_mirror : Instance) :
    CreateMethodMirror addr func owner_mirror =
      Instance.mirror Symbols._LocalMethodMirrorImpl
        [Instance.mirrorReference (MirrorReference.New addr (Declaration.ofFunction func)),
          Instance.str func.UserVisibleName, owner_mirror,
          Instance.bool func.is_static, Instance.bool func.is_abstract,
          Instance.bool func.IsGetterFunction, Instance.bool func.IsSetterFunction,
          Instance.bool func.IsConstructor,
          Instance.bool false, Instance.bool false, Instance.bool false,
          Instance.bool false] ∧
    (∃ args, CreateMethodMirror addr func owner_mirror =
        Instance.mirror Symbols._LocalMethodMirrorImpl args ∧ args.length = 12) ∧
    (MirrorReference.New addr (Declaration.ofFunction func)).referent =
      Declaration.ofFunction func := by
  have h : CreateMethodMirror addr func owner_mirror =
      Instance.mirror Symbols._LocalMethodMirrorImpl
        [Instance.mirrorReference (MirrorReference.New addr (Declaration.ofFunction func)),
          Instance.str func.UserVisibleName, owner_mirror,
          Instance.bool func.is_static, Instance.bool func.is_abstract,
          Instance.bool func.IsGetterFunction, Instance.bool func.IsSetterFunction,
          Instance.bool func.IsConstructor,
          Instance.bool false, Instance.bool false, Instance.bool false,
          Instance.bool false] := by
    unfold CreateMethodMirror CreateMirror
    cases func.is_static <;> cases func.is_abstract <;> cases func.IsGetterFunction <;>
      cases func.IsSetterFunction <;> cases func.IsConstructor <;> rfl
  exact ⟨h, ⟨_, h, rfl⟩, rfl⟩

/-- C16: `CreateClassMirror` builds a FunctionType mirror (reference, type) for a canonical
signature class, a Typedef mirror (reference, name, owner) for any other signature class,
and otherwise a Class mirror (reference, type, user-visible name, generic flag) whose flag
is true exactly when the class has more than zero type parameters; the result is a Class
mirror exactly when the class is not a signature class. -/
theorem CreateClassMirror_kinds (vm : VM) (addr : RawObject) (cls : Class) (type : Instance)
    (owner_mirror : Instance) :
    CreateClassMirror vm addr cls type owner_mirror =
      (if vm.IsSignatureClass cls = true then
        (if vm.IsCanonicalSignatureClass cls = true then
          Instance.mirror Symbols._LocalFunctionTypeMirrorImpl
            [Instance.mirrorReference (MirrorReference.New addr (Declaration.ofClass cls)),
              type]
        else
          Instance.mirror Symbols._LocalTypedefMirrorImpl
            [Instance.mirrorReference (MirrorReference.New addr (Declaration.ofClass cls)),
              Instance.str (vm.ClassUserVisibleName cls), owner_mirror])
      else
        Instance.mirror Symbols._LocalClassMirrorImpl
          [Instance.mirrorReference (MirrorReference.New addr (Declaration.ofClass cls)),
            type, Instance.str (vm.ClassUserVisibleName cls),
            Instance.bool (decide (0 < vm.NumTypeParameters cls))]) ∧
    ((∃ args, CreateClassMirror vm addr cls type owner_mirror =
        Instance.mirror Symbols._LocalClassMirrorImpl args) ↔
      vm.IsSignatureClass cls = false) := by
  have hfun : Symbols._LocalFunctionTypeMirrorImpl ≠ Symbols._LocalClassMirrorImpl := by
    decide
  have htypedef : Symbols._LocalTypedefMirrorImpl ≠ Symbols._LocalClassMirrorImpl := by
    decide
  cases hs : vm.IsSignatureClass cls with
  | false =>
    have hg : (if vm.NumTypeParameters cls = 0 then Instance.bool false
        else Instance.bool true) = Instance.bool (decide (0 < vm.NumTypeParameters cls)) := by
      by_cases h0 : vm.NumTypeParameters cls = 0
      · simp [h0]
      · have hpos : 0 < vm.NumTypeParameters cls := Nat.pos_of_ne_zero h0
        simp [h0, hpos]
    have h : CreateClassMirror vm addr cls type owner_mirror =
        Instance.mirror Symbols._LocalClassMirrorImpl
          [Instance.mirrorReference (MirrorReference.New addr (Declaration.ofClass cls)),
            type, Instance.str (vm.ClassUserVisibleName cls),
            Instance.bool (decide (0 < vm.NumTypeParameters cls))] := by
      simp only [CreateClassMirror, hs, CreateMirror, hg]
      rfl
    refine ⟨by simpa using h, ?_⟩
    constructor
    · intro _
      rfl
    · intro _
      exact ⟨_, h⟩
  | true =>
    cases hc : vm.IsCanonicalSignatureClass cls with
    | true =>
      have h : CreateClassMirror vm addr cls type owner_mirror =
          Instance.mirror Symbols._LocalFunctionTypeMirrorImpl
            [Instance.mirrorReference (MirrorReference.New addr (Declaration.ofClass cls)),
              type] := by
        simp only [CreateClassMirror, hs, hc, CreateFunctionTypeMirror, CreateMirror]
        rfl
      refine ⟨by simpa using h, ?_⟩
      constructor
      · rintro ⟨args, hargs⟩
        rw [h] at hargs
        injection hargs with hname _
        exact absurd hname hfun
      · intro hcontra
        exact absurd hcontra (by simp)
    | false =>
      have h : CreateClassMirror vm addr cls type owner_mirror =
          Instance.mirror Symbols._LocalTypedefMirrorImpl
            [Instance.mirrorReference (MirrorReference.New addr (Declaration.ofClass cls)),
              Instance.str (vm.ClassUserVisibleName cls), owner_mirror] := by
        simp only [CreateClassMirror, hs, hc, CreateTypedefMirror, CreateMirror]
        rfl
      refine ⟨by simpa using h, ?_⟩
      constructor
      · rintro ⟨args, hargs⟩
        rw [h] at hargs
        injection hargs with hname _
        exact absurd hname htypedef
      · intro hcontra
        exact absurd hcontra (by simp)

/-- C17: for a type that is not malformed and either has a resolved class or is a type
parameter, `CreateTypeMirror` returns (it does not reach `UNREACHABLE()`): a SpecialType
mirror holding the void marker for the class void, a SpecialType mirror holding the
dynamic marker for the class dynamic, the result of `CreateClassMirror` on the type with
a null owner for any other resolved class, and a TypeVariable mirror with a null owner for
a type parameter without resolved class. -/
theorem CreateTypeMirror_routes (vm : VM) (addr : RawObject) (type : AbstractType)
    (_hm : type.IsMalformed = false)
    (h : type.HasResolvedTypeClass = true ∨ type.IsTypeParameter = true) :
    CreateTypeMirror vm addr type =
      some (if type.HasResolvedTypeClass = true then
        (if vm.IsVoidClass type.type_class = true then
          Instance.mirror Symbols._SpecialTypeMirrorImpl [Instance.str Symbols.Void]
        else if vm.IsDynamicClass type.type_class = true then
          Instance.mirror Symbols._SpecialTypeMirrorImpl [Instance.str Symbols.Dynamic]
        else
          CreateClassMirror vm addr type.type_class (Instance.abstractType type)
            Instance.null)
      else
        Instance.mirror Symbols._LocalTypeVariableMirrorImpl
          [Instance.abstractType type, Instance.str type.name, Instance.null]) := by
  unfold CreateTypeMirror
  cases hr : type.HasResolvedTypeClass with
  | true =>
    cases hv : vm.IsVoidClass type.type_class with
    | true => simp [hv, CreateMirror, List.replicate]
    | false =>
      cases hd : vm.IsDynamicClass type.type_class with
      | true => simp [hv, hd, CreateMirror, List.replicate]
      | false => simp [hv, hd]
  | false =>
    rcases h with h | h
    · rw [hr] at h
      exact absurd h (by simp)
    · simp [h, CreateTypeVariableMirror, CreateMirror, List.replicate]

/-- Witness for C17: the types `void`, `dynamic`, `A` and the type parameter `T`. -/
theorem CreateTypeMirror_routes_witness :
    CreateTypeMirror typeVM 70 voidType =
      some (Instance.mirror Symbols._SpecialTypeMirrorImpl [Instance.str Symbols.Void]) ∧
    CreateTypeMirror typeVM 70 dynamicType =
      some (Instance.mirror Symbols._SpecialTypeMirrorImpl [Instance.str Symbols.Dynamic]) ∧
    CreateTypeMirror typeVM 70 typeA =
      some (CreateClassMirror typeVM 70 classA (Instance.abstractType typeA) Instance.null) ∧
    CreateTypeMirror typeVM 70 paramT =
      some (Instance.mirror Symbols._LocalTypeVariableMirrorImpl
        [Instance.abstractType paramT, Instance.str "T", Instance.null]) :=
  ⟨CreateTypeMirror_routes typeVM 70 voidType (by decide) (Or.inl (by decide)),
    CreateTypeMirror_routes typeVM 70 dynamicType (by decide) (Or.inl (by decide)),
    CreateTypeMirror_routes typeVM 70 typeA (by decide) (Or.inl (by decide)),
    CreateTypeMirror_routes typeVM 70 paramT (by decide) (Or.inr (by decide))⟩

/-- After `k` rounds the loop of `CreateParameterMirrorList` still has the reference in
slot 0 of the argument array, and the first `k` results are the parameter mirrors. -/
theorem CreateParameterMirrorList_rounds (func : Function) (ref : Instance) (n : Nat) :
    ∀ k, k ≤ n →
      (∃ x y, ((List.range k).foldl (CreateParameterMirrorList_step func)
          ([ref, Instance.null, Instance.null], List.replicate n Instance.null)).1
            = [ref, x, y]) ∧
      ((List.range k).foldl (CreateParameterMirrorList_step func)
          ([ref, Instance.null, Instance.null], List.replicate n Instance.null)).2.length
            = n ∧
      ∀ i, i < k →
        ((List.range k).foldl (CreateParameterMirrorList_step func)
          ([ref, Instance.null, Instance.null], List.replicate n Instance.null)).2[i]? =
          some (Instance.mirror Symbols._LocalParameterMirrorImpl
            [ref, Instance.smi i, Instance.bool (decide (func.num_fixed_parameters ≤ i))]) := by
  intro k
  induction k with
  | zero =>
    intro _
    refine ⟨⟨Instance.null, Instance.null, rfl⟩, by simp, ?_⟩
    intro i hi
    exact absurd hi (Nat.not_lt_zero i)
  | succ k ih =>
    intro hk
    obtain ⟨⟨x, y, hargs⟩, hlen, hprev⟩ := ih (Nat.le_of_succ_le hk)
    have hstep : (List.range (k + 1)).foldl (CreateParameterMirrorList_step func)
        ([ref, Instance.null, Instance.null], List.replicate n Instance.null) =
        CreateParameterMirrorList_step func
          ((List.range k).foldl (CreateParameterMirrorList_step func)
            ([ref, Instance.null, Instance.null], List.replicate n Instance.null)) k := by
      simp [List.range_succ, List.foldl_append]
    have hflag : (if k ≥ func.num_fixed_parameters then Instance.bool true
        else Instance.bool false) =
        Instance.bool (decide (func.num_fixed_parameters ≤ k)) := by
      by_cases hge : func.num_fixed_parameters ≤ k <;> simp [hge]
    rw [hstep]
    generalize (List.range k).foldl (CreateParameterMirrorList_step func)
      ([ref, Instance.null, Instance.null], List.replicate n Instance.null) = S
      at hargs hlen hprev
    obtain ⟨a, r⟩ := S
    simp only at hargs hlen hprev
    subst hargs
    simp only [CreateParameterMirrorList_step, hflag, List.set_cons_succ, List.set_cons_zero,
      CreateMirror]
    refine ⟨⟨_, _, rfl⟩, by simp [hlen], ?_⟩
    intro i hi
    by_cases hik : i = k
    · subst hik
      rw [List.getElem?_set_self (by omega)]
    · rw [List.getElem?_set_ne (fun h => hik h.symm)]
      exact hprev i (by omega)

/-- C14: for a function whose implicit parameters are among its fixed parameters,
`CreateParameterMirrorList` returns an array of `f - k + o` parameter mirrors; the mirror
at index `i` holds a reference to the function and the position `i`, and
`ParameterMirror_type` reads the parameter at `k + i`, so the implicit parameters are
left out and the order is the declaration order. -/
theorem CreateParameterMirrorList_positions (vm : VM) (addr : RawObject) (func : Function)
    (hk : func.NumImplicitParameters ≤ func.num_fixed_parameters) :
    ∃ results, CreateParameterMirrorList addr func = Instance.array results ∧
      results.length =
        func.num_fixed_parameters - func.NumImplicitParameters + func.NumOptionalParameters ∧
      (∀ i, i < func.num_fixed_parameters - func.NumImplicitParameters +
          func.NumOptionalParameters →
        results[i]? = some (Instance.mirror Symbols._LocalParameterMirrorImpl
          [Instance.mirrorReference (MirrorReference.New addr (Declaration.ofFunction func)),
            Instance.smi i, Instance.bool (decide (func.num_fixed_parameters ≤ i))]) ∧
        (MirrorReference.New addr (Declaration.ofFunction func)).referent =
          Declaration.ofFunction func ∧
        ParameterMirror_type vm func i =
          vm.ParameterTypeAt func ((func.NumImplicitParameters : Int) + (i : Int))) := by
  have hcnt : (CreateParameterMirrorList_param_cnt func).toNat =
      func.num_fixed_parameters - func.NumImplicitParameters + func.NumOptionalParameters := by
    unfold CreateParameterMirrorList_param_cnt
    omega
  obtain ⟨_, hlen, hres⟩ := CreateParameterMirrorList_rounds func
    (Instance.mirrorReference (MirrorReference.New addr (Declaration.ofFunction func)))
    (func.num_fixed_parameters - func.NumImplicitParameters + func.NumOptionalParameters)
    (func.num_fixed_parameters - func.NumImplicitParameters + func.NumOptionalParameters)
    (Nat.le_refl _)
  refine ⟨_, ?_, hlen, ?_⟩
  · unfold CreateParameterMirrorList
    simp only [hcnt]
    rfl
  · intro i hi
    exact ⟨hres i hi, rfl, rfl⟩

/-- Witness for C14: the instance method `m(a, [b])` has the two declared parameters `a`
and `b`. -/
theorem CreateParameterMirrorList_positions_witness :
    ∃ results, CreateParameterMirrorList 90 methodOptional = Instance.array results ∧
      results.length =
        methodOptional.num_fixed_parameters - methodOptional.NumImplicitParameters +
          methodOptional.NumOptionalParameters ∧
      (∀ i, i < methodOptional.num_fixed_parameters - methodOptional.NumImplicitParameters +
          methodOptional.NumOptionalParameters →
        results[i]? = some (Instance.mirror Symbols._LocalParameterMirrorImpl
          [Instance.mirrorReference
              (MirrorReference.New 90 (Declaration.ofFunction methodOptional)),
            Instance.smi i,
            Instance.bool (decide (methodOptional.num_fixed_parameters ≤ i))]) ∧
        (MirrorReference.New 90 (Declaration.ofFunction methodOptional)).referent =
          Declaration.ofFunction methodOptional ∧
        ParameterMirror_type emptyVM methodOptional i =
          emptyVM.ParameterTypeAt methodOptional
            ((methodOptional.NumImplicitParameters : Int) + (i : Int))) :=
  CreateParameterMirrorList_positions emptyVM 90 methodOptional (by decide)

/-- C13 (code evaluated at the failing input): the instance method `m(a, [b])` has one
implicit parameter, two fixed parameters (the receiver and `a`) and the optional
parameter `b`. The mirror of `b`, at position 1, is past the one declared fixed
parameter, yet its is-optional flag is false: the loop compares the position with the
count of fixed parameters that still includes the receiver. -/
theorem CreateParameterMirrorList_optional_flag :
    methodOptional.NumImplicitParameters = 1 ∧
    methodOptional.num_fixed_parameters = 2 ∧
    methodOptional.NumOptionalParameters = 1 ∧
    methodOptional.num_fixed_parameters - methodOptional.NumImplicitParameters ≤ 1 ∧
    CreateParameterMirrorList 90 methodOptional =
      Instance.array
        [Instance.mirror Symbols._LocalParameterMirrorImpl
          [Instance.mirrorReference
              (MirrorReference.New 90 (Declaration.ofFunction methodOptional)),
            Instance.smi 0, Instance.bool false],
         Instance.mirror Symbols._LocalParameterMirrorImpl
          [Instance.mirrorReference
              (MirrorReference.New 90 (Declaration.ofFunction methodOptional)),
            Instance.smi 1, Instance.bool false]] := by
  refine ⟨rfl, rfl, rfl, by decide, by rfl⟩

/-- After `k` rounds the loop of `CreateTypeVariableList` has written the name and the
type parameter of each of the first `k` parameters. -/
theorem CreateTypeVariableList_rounds (args : List AbstractType) :
    ∀ k, k ≤ args.length →
      ((List.range k).foldl (CreateTypeVariableList_step args)
        (List.replicate (args.length * 2) Instance.null)).length = args.length * 2 ∧
      ∀ i (_hi : i < k) (hlt : i < args.length),
        ((List.range k).foldl (CreateTypeVariableList_step args)
          (List.replicate (args.length * 2) Instance.null))[2 * i]? =
            some (Instance.str args[i].name) ∧
        ((List.range k).foldl (CreateTypeVariableList_step args)
          (List.replicate (args.length * 2) Instance.null))[2 * i + 1]? =
            some (Instance.abstractType args[i]) := by
  intro k
  induction k with
  | zero =>
    intro _
    refine ⟨by simp, ?_⟩
    intro i hi
    exact absurd hi (Nat.not_lt_zero i)
  | succ k ih =>
    intro hk
    obtain ⟨hlen, hprev⟩ := ih (Nat.le_of_succ_le hk)
    have hklt : k < args.length := hk
    have hstep : (List.range (k + 1)).foldl (CreateTypeVariableList_step args)
        (List.replicate (args.length * 2) Instance.null) =
        CreateTypeVariableList_step args
          ((List.range k).foldl (CreateTypeVariableList_step args)
            (List.replicate (args.length * 2) Instance.null)) k := by
      simp [List.range_succ, List.foldl_append]
    rw [hstep]
    generalize (List.range k).foldl (CreateTypeVariableList_step args)
      (List.replicate (args.length * 2) Instance.null) = r at hlen hprev
    have hget : args.get? k = some args[k] := by
      rw [List.get?_eq_getElem?, List.getElem?_eq_getElem hklt]
    simp only [CreateTypeVariableList_step, hget]
    refine ⟨by simp [hlen], ?_⟩
    intro i hi hlt
    by_cases hik : i = k
    · subst hik
      constructor
      · rw [List.getElem?_set_ne (by omega), List.getElem?_set_self (by omega)]
      · rw [List.getElem?_set_self (by rw [List.length_set]; omega)]
    · have hi' : i < k := by omega
      obtain ⟨h0, h1⟩ := hprev i hi' hlt
      constructor
      · rw [List.getElem?_set_ne (by omega), List.getElem?_set_ne (by omega)]
        exact h0
      · rw [List.getElem?_set_ne (by omega), List.getElem?_set_ne (by omega)]
        exact h1

/-- C18: for a class whose type-parameter vector is null `CreateTypeVariableList` returns
the empty array; for a class with type parameters `ps` it returns a flat array of length
`2 * ps.length` whose entry `2 * i` is the name of parameter `i` and whose entry
`2 * i + 1` is parameter `i` itself. -/
theorem CreateTypeVariableList_pairs (vm : VM) (cls : Class) :
    (vm.type_parameters cls = none → CreateTypeVariableList vm cls = Instance.array []) ∧
    (∀ ps, vm.type_parameters cls = some ps →
      ∃ result, CreateTypeVariableList vm cls = Instance.array result ∧
        result.length = 2 * ps.length ∧
        ∀ i (hi : i < ps.length),
          result[2 * i]? = some (Instance.str ps[i].name) ∧
          result[2 * i + 1]? = some (Instance.abstractType ps[i])) := by
  constructor
  · intro h
    simp [CreateTypeVariableList, h]
  · intro ps h
    obtain ⟨hlen, hres⟩ := CreateTypeVariableList_rounds ps ps.length (Nat.le_refl _)
    refine ⟨(List.range ps.length).foldl (CreateTypeVariableList_step ps)
      (List.replicate (ps.length * 2) Instance.null), ?_, ?_, ?_⟩
    · simp only [CreateTypeVariableList, h]
    · rw [hlen, Nat.mul_comm]
    · intro i hi
      exact hres i hi hi

/-- Witness for C18: the class `G<T, U>` and a class without type parameters. -/
theorem CreateTypeVariableList_pairs_witness :
    CreateTypeVariableList typeVM classA = Instance.array [] ∧
    (∃ result, CreateTypeVariableList typeVM classG = Instance.array result ∧
      result.length = 2 * [paramT, paramU].length ∧
      ∀ i (hi : i < [paramT, paramU].length),
        result[2 * i]? = some (Instance.str [paramT, paramU][i].name) ∧
        result[2 * i + 1]? = some (Instance.abstractType [paramT, paramU][i])) ∧
    CreateTypeVariableList typeVM classG =
      Instance.array [Instance.str "T", Instance.abstractType paramT,
        Instance.str "U", Instance.abstractType paramU] :=
  ⟨(CreateTypeVariableList_pairs typeVM classA).1 (by decide),
    (CreateTypeVariableList_pairs typeVM classG).2 [paramT, paramU] (by decide),
    by rfl⟩

/-- A type with a resolved class, or a type parameter, has a type mirror. -/
theorem CreateTypeMirror_returns (vm : VM) (addr : RawObject) (type : AbstractType)
    (h : type.HasResolvedTypeClass = true ∨ type.IsTypeParameter = true) :
    ∃ mirror, CreateTypeMirror vm addr type = some mirror := by
  have hsome : (CreateTypeMirror vm addr type).isSome = true := by
    unfold CreateTypeMirror
    by_cases hr : type.HasResolvedTypeClass = true
    · simp only [hr, if_true]
      split_ifs <;> rfl
    · rcases h with h | h
      · exact absurd h hr
      · simp [hr, h]
  exact Option.isSome_iff_exists.mp hsome

/-- When every entry can be computed, the fill loop returns the array of the entries. -/
theorem fillArray_some (n : Nat) (entry : Nat → Option Instance) (g : Nat → Instance)
    (h : ∀ i, i < n → entry i = some (g i)) :
    ∃ r, fillArray n entry = some r ∧ r.length = n ∧ ∀ i, i < n → r[i]? = some (g i) := by
  have hrounds : ∀ k, k ≤ n →
      ∃ r, (List.range k).foldl
          (fun result i =>
            match result, entry i with
            | some r, some m => some (r.set i m)
            | _, _ => none)
          (some (List.replicate n Instance.null)) = some r ∧
        r.length = n ∧ ∀ i, i < k → r[i]? = some (g i) := by
    intro k
    induction k with
    | zero =>
      intro _
      refine ⟨_, rfl, by simp, ?_⟩
      intro i hi
      exact absurd hi (Nat.not_lt_zero i)
    | succ k ih =>
      intro hk
      obtain ⟨r, hr, hlen, hprev⟩ := ih (Nat.le_of_succ_le hk)
      refine ⟨r.set k (g k), ?_, by simp [hlen], ?_⟩
      · rw [List.range_succ, List.foldl_append, hr]
        simp [h k hk]
      · intro i hi
        by_cases hik : i = k
        · subst hik
          rw [List.getElem?_set_self (by omega)]
        · rw [List.getElem?_set_ne (fun h => hik h.symm)]
          exact hprev i (by omega)
  obtain ⟨r, hr, hlen, hres⟩ := hrounds n (Nat.le_refl _)
  exact ⟨r, hr, hlen, hres⟩

/-- C12: `ClassMirror_type_arguments` returns the empty array when the argument vector of
the type is null. When the vector has length `n + m`, with `n` the number of type
parameters of the class of the type, and each of its last `n` entries has a resolved
class or is a type parameter, it returns an array of exactly `n` entries whose entry `i`
is the type mirror of the bound argument `m + i`. -/
theorem ClassMirror_type_arguments_trailing (vm : VM) (addr : Nat → RawObject)
    (type : AbstractType) :
    (vm.arguments type = none →
      ClassMirror_type_arguments vm addr type = some (Instance.array [])) ∧
    (∀ args m, vm.arguments type = some args →
      args.length = vm.NumTypeParameters type.type_class + m →
      (∀ i t, i < vm.NumTypeParameters type.type_class → args[m + i]? = some t →
        t.HasResolvedTypeClass = true ∨ t.IsTypeParameter = true) →
      ∃ result, ClassMirror_type_arguments vm addr type = some (Instance.array result) ∧
        result.length = vm.NumTypeParameters type.type_class ∧
        ∀ i, i < vm.NumTypeParameters type.type_class →
          ∃ t mirror, args[m + i]? = some t ∧
            CreateTypeMirror vm (addr i) t = some mirror ∧ result[i]? = some mirror) := by
  constructor
  · intro h
    simp [ClassMirror_type_arguments, h]
  · intro args m hargs hlen hok
    have hentry : ∀ i, i < vm.NumTypeParameters type.type_class →
        ∃ t mirror, args[m + i]? = some t ∧
          CreateTypeMirror vm (addr i) t = some mirror ∧
          ClassMirror_type_arguments_entry vm addr args
            ((args.length : Int) - (vm.NumTypeParameters type.type_class : Int)) i
              = some mirror := by
      intro i hi
      have hlt : m + i < args.length := by omega
      have hget : args[m + i]? = some args[m + i] := List.getElem?_eq_getElem hlt
      obtain ⟨mirror, hmirror⟩ := CreateTypeMirror_returns vm (addr i) args[m + i]
        (hok i args[m + i] hi hget)
      refine ⟨args[m + i], mirror, hget, hmirror, ?_⟩
      have hidx : (i : Int) + ((args.length : Int) -
          (vm.NumTypeParameters type.type_class : Int)) = ((m + i : Nat) : Int) := by
        omega
      have hat : TypeAt args ((i : Int) + ((args.length : Int) -
          (vm.NumTypeParameters type.type_class : Int))) = some args[m + i] := by
        rw [hidx]
        have hnonneg : (0 : Int) ≤ ((m + i : Nat) : Int) := Int.ofNat_nonneg _
        simp only [TypeAt]
        rw [if_pos hnonneg, Int.toNat_ofNat, List.get?_eq_getElem?]
        exact hget
      simp only [ClassMirror_type_arguments_entry, hat, hmirror]
    obtain ⟨r, hr, hrlen, hres⟩ := fillArray_some (vm.NumTypeParameters type.type_class)
      (ClassMirror_type_arguments_entry vm addr args
        ((args.length : Int) - (vm.NumTypeParameters type.type_class : Int)))
      (fun i => ((ClassMirror_type_arguments_entry vm addr args
        ((args.length : Int) - (vm.NumTypeParameters type.type_class : Int)) i).getD
          Instance.null))
      (by
        intro i hi
        obtain ⟨_, mirror, _, _, he⟩ := hentry i hi
        simp [he])
    refine ⟨r, ?_, hrlen, ?_⟩
    · simp [ClassMirror_type_arguments, hargs, hr]
    · intro i hi
      obtain ⟨t, mirror, hget, hmirror, he⟩ := hentry i hi
      refine ⟨t, mirror, hget, hmirror, ?_⟩
      rw [hres i hi, he]
      rfl

/-- Witness for C12: the sample type of `G` has the vector `[dynamic, A, T]`; `G` has two
type parameters, so one argument is inherited and the mirrors of `A` and `T` are
returned. -/
theorem ClassMirror_type_arguments_trailing_witness :
    ∃ result, ClassMirror_type_arguments typeVM (fun i => 80 + i) typeG =
        some (Instance.array result) ∧
      result.length = typeVM.NumTypeParameters typeG.type_class ∧
      ∀ i, i < typeVM.NumTypeParameters typeG.type_class →
        ∃ t mirror, [dynamicType, typeA, paramT][1 + i]? = some t ∧
          CreateTypeMirror typeVM ((fun i => 80 + i) i) t = some mirror ∧
          result[i]? = some mirror :=
  (ClassMirror_type_arguments_trailing typeVM (fun i => 80 + i) typeG).2
    [dynamicType, typeA, paramT] 1 (by decide) (by decide)
    (by
      intro i t hi ht
      have hi2 : i < 2 := hi
      interval_cases i
      · simp at ht
        subst ht
        exact Or.inl (by decide)
      · simp at ht
        subst ht
        exact Or.inr (by decide))

/-- C19: `ClassMirror_invokeConstructor` looks up the label made of the class name, a dot
and the constructor name (the class name and a dot when the name is null or empty) among
the functions of the class itself. It invokes the function found, through
`DartEntry::InvokeConstructor`, when that function is a constructor or a factory and
accepts the supplied arguments plus its implicit parameters; when nothing is found, or
the function found is neither, or the arity is wrong, it raises NoSuchMethod and leaves
the isolate state as it was. -/
theorem ClassMirror_invokeConstructor_resolution (vm : VM) (klass : Class)
    (constructor_name : Option String) (positional_args : List Instance) (st : Heap) :
    internalConstructorName klass none = klass.Name ++ "." ∧
    internalConstructorName klass (some "") = klass.Name ++ "." ∧
    (∀ name, internalConstructorName klass (some name) = klass.Name ++ "." ++ name) ∧
    (∀ c, vm.LookupFunctionAllowPrivate klass
        (internalConstructorName klass constructor_name) = some c →
      (c.IsConstructor = true ∨ c.IsFactory = true) →
      vm.AreValidArgumentCounts c (positional_args.length + c.NumImplicitParameters) 0 = true →
      ClassMirror_invokeConstructor vm klass constructor_name positional_args st =
        (returnOrThrow (vm.InvokeConstructor klass c positional_args st.value).1,
          Heap.mk (vm.InvokeConstructor klass c positional_args st.value).2
            (st.log ++ [Event.InvokeConstructor klass c positional_args]))) ∧
    ((vm.LookupFunctionAllowPrivate klass
          (internalConstructorName klass constructor_name) = none ∨
        ∃ c, vm.LookupFunctionAllowPrivate klass
            (internalConstructorName klass constructor_name) = some c ∧
          ((c.IsConstructor = false ∧ c.IsFactory = false) ∨
            vm.AreValidArgumentCounts c
              (positional_args.length + c.NumImplicitParameters) 0 = false)) →
      (∃ a, (ClassMirror_invokeConstructor vm klass constructor_name positional_args st).1 =
        Outcome.thrown ExceptionType.kNoSuchMethod a) ∧
      (ClassMirror_invokeConstructor vm klass constructor_name positional_args st).2 = st) := by
  refine ⟨rfl, ?_, fun _ => rfl, ?_, ?_⟩
  · simp [internalConstructorName]
  · intro c hfound hkind hvalid
    have hk : (!c.IsConstructor && !c.IsFactory) = false := by
      rcases hkind with h | h <;> simp [h]
    simp [ClassMirror_invokeConstructor, hfound, hk, hvalid, DartEntry.InvokeConstructor]
  · intro hfail
    rcases hfail with hnone | ⟨c, hfound, hbad⟩
    · simp [ClassMirror_invokeConstructor, hnone, ThrowNoSuchMethodClass, ThrowNoSuchMethod]
    · rcases hbad with ⟨h1, h2⟩ | h
      · simp [ClassMirror_invokeConstructor, hfound, h1, h2, ThrowNoSuchMethodClass,
          ThrowNoSuchMethod]
      · simp [ClassMirror_invokeConstructor, hfound, h, ThrowNoSuchMethodClass,
          ThrowNoSuchMethod]

/-- Witness for C19: the constructor `A(x)` is invoked with one argument, and nothing is
invoked for the unknown constructor `A.named`. -/
theorem ClassMirror_invokeConstructor_resolution_witness :
    ClassMirror_invokeConstructor constructorVM classA (some "") [Instance.smi 1] emptyHeap =
      (returnOrThrow
          (constructorVM.InvokeConstructor classA constructorA [Instance.smi 1]
            emptyHeap.value).1,
        Heap.mk
          (constructorVM.InvokeConstructor classA constructorA [Instance.smi 1]
            emptyHeap.value).2
          (emptyHeap.log ++ [Event.InvokeConstructor classA constructorA [Instance.smi 1]])) ∧
    ((∃ a, (ClassMirror_invokeConstructor constructorVM classA (some "named") []
        emptyHeap).1 = Outcome.thrown ExceptionType.kNoSuchMethod a) ∧
      (ClassMirror_invokeConstructor constructorVM classA (some "named") []
        emptyHeap).2 = emptyHeap) :=
  ⟨(ClassMirror_invokeConstructor_resolution constructorVM classA (some "")
      [Instance.smi 1] emptyHeap).2.2.2.1 constructorA (by decide) (Or.inl (by decide))
      (by decide),
    (ClassMirror_invokeConstructor_resolution constructorVM classA (some "named") []
      emptyHeap).2.2.2.2 (Or.inl (by decide))⟩

/-- Counterexample for C20 as stated: the caller asks for the constructor `named` of `A`,
which does not exist; the member-name slot of the NoSuchMethod raised holds the internal
label `A.named`, not the name `named` supplied by the caller. -/
theorem ClassMirror_invokeConstructor_label_counterexample :
    constructorVM.LookupFunctionAllowPrivate classA
      (internalConstructorName classA (some "named")) = none ∧
    ClassMirror_invokeConstructor constructorVM classA (some "named") [] emptyHeap =
      (Outcome.thrown ExceptionType.kNoSuchMethod
        [Instance.type classA, Instance.str "A.named", Instance.smi 8,
          Instance.null, Instance.null, Instance.null], emptyHeap) ∧
    Instance.str "A.named" ≠ Instance.str "named" := by
  refine ⟨by decide, by rfl, ?_⟩
  intro h
  injection h with h
  exact absurd h (by decide)

/-- C20 (amended): when `ClassMirror_invokeConstructor` fails to resolve the constructor
`name` of a class (nothing found under the label, a function that is neither constructor
nor factory, or a wrong arity), the member-name slot of the NoSuchMethod failure holds the
internal label: the class name, a dot and `name`. -/
theorem ClassMirror_invokeConstructor_failure_label (vm : VM) (klass : Class)
    (name : String) (positional_args : List Instance) (st : Heap)
    (hfail : vm.LookupFunctionAllowPrivate klass (klass.Name ++ "." ++ name) = none ∨
      ∃ c, vm.LookupFunctionAllowPrivate klass (klass.Name ++ "." ++ name) = some c ∧
        ((c.IsConstructor = false ∧ c.IsFactory = false) ∨
          vm.AreValidArgumentCounts c
            (positional_args.length + c.NumImplicitParameters) 0 = false)) :
    ClassMirror_invokeConstructor vm klass (some name) positional_args st =
      (Outcome.thrown ExceptionType.kNoSuchMethod
        [RawTypeOfClass vm klass, Instance.str (klass.Name ++ "." ++ name),
          Instance.smi (vm.EncodeType Call.kConstructor InvType.kMethod),
          Instance.null, Instance.null, Instance.null], st) := by
  have hlabel : internalConstructorName klass (some name) = klass.Name ++ "." ++ name := rfl
  rcases hfail with hnone | ⟨c, hfound, hbad⟩
  · simp [ClassMirror_invokeConstructor, hlabel, hnone, ThrowNoSuchMethodClass,
      ThrowNoSuchMethod, List.replicate]
  · rcases hbad with ⟨h1, h2⟩ | h
    · simp [ClassMirror_invokeConstructor, hlabel, hfound, h1, h2, ThrowNoSuchMethodClass,
        ThrowNoSuchMethod, List.replicate]
    · simp [ClassMirror_invokeConstructor, hlabel, hfound, h, ThrowNoSuchMethodClass,
        ThrowNoSuchMethod, List.replicate]

/-- Witness for C20 (amended): the unknown constructor `named` of `A`. -/
theorem ClassMirror_invokeConstructor_failure_label_witness :
    ClassMirror_invokeConstructor constructorVM classA (some "named") [] emptyHeap =
      (Outcome.thrown ExceptionType.kNoSuchMethod
        [RawTypeOfClass constructorVM classA, Instance.str (classA.Name ++ "." ++ "named"),
          Instance.smi (constructorVM.EncodeType Call.kConstructor InvType.kMethod),
          Instance.null, Instance.null, Instance.null], emptyHeap) :=
  ClassMirror_invokeConstructor_failure_label constructorVM classA "named" [] emptyHeap
    (Or.inl (by decide))

/-- C21: when the class `S` itself has no static function, static field, getter function
or setter function for the name `n`, `ClassMirror_invoke`, `ClassMirror_invokeGetter` and
`ClassMirror_invokeSetter` on `S` raise NoSuchMethod and leave the isolate state as it
was, whatever the superclasses of `S` declare: the natives look members up in `S` only. -/
theorem static_resolution_own_class (vm : VM) (S : Class) (n : String)
    (positional_args : List Instance) (value : Instance) (st : Heap)
    (hmethod : vm.LookupStaticFunctionAllowPrivate S n = none)
    (hfield : vm.LookupStaticField S n = none)
    (hgetter : vm.LookupStaticFunctionAllowPrivate S (vm.GetterName n) = none)
    (hsetter : vm.LookupStaticFunctionAllowPrivate S (vm.SetterName n) = none) :
    ClassMirror_invoke vm S n positional_args st =
      (Outcome.thrown ExceptionType.kNoSuchMethod
        [RawTypeOfClass vm S, Instance.str n,
          Instance.smi (vm.EncodeType Call.kStatic InvType.kMethod),
          Instance.null, Instance.null, Instance.null], st) ∧
    ClassMirror_invokeGetter vm S n st =
      (Outcome.thrown ExceptionType.kNoSuchMethod
        [RawTypeOfClass vm S, Instance.str n,
          Instance.smi (vm.EncodeType Call.kStatic InvType.kGetter),
          Instance.null, Instance.null, Instance.null], st) ∧
    ClassMirror_invokeSetter vm S n value st =
      (Outcome.thrown ExceptionType.kNoSuchMethod
        [RawTypeOfClass vm S, Instance.str n,
          Instance.smi (vm.EncodeType Call.kStatic InvType.kSetter),
          Instance.null, Instance.null, Instance.null], st) := by
  refine ⟨?_, ?_, ?_⟩
  · simp [ClassMirror_invoke, hmethod, ThrowNoSuchMethodClass, ThrowNoSuchMethod,
      List.replicate]
  · simp [ClassMirror_invokeGetter, ClassMirror_invokeGetter_viaGetter, hfield, hgetter,
      ThrowNoSuchMethodClass, ThrowNoSuchMethod, List.replicate]
  · simp [ClassMirror_invokeSetter, hfield, hsetter, ThrowNoSuchMethodClass,
      ThrowNoSuchMethod, List.replicate]

/-- Witness for C21: `B` has a static method, field, getter and setter `n`; `S extends B`
has none, and the three natives on `S` raise NoSuchMethod. -/
theorem static_resolution_own_class_witness :
    classS.SuperClass = classB ∧
    inheritedStaticVM.LookupStaticFunctionAllowPrivate classB "n" = some staticBn ∧
    inheritedStaticVM.LookupStaticField classB "n" = some staticFieldBn ∧
    inheritedStaticVM.LookupStaticFunctionAllowPrivate classB "get:n" = some staticBn ∧
    inheritedStaticVM.LookupStaticFunctionAllowPrivate classB "set:n" = some staticBn ∧
    (ClassMirror_invoke inheritedStaticVM classS "n" [] emptyHeap =
      (Outcome.thrown ExceptionType.kNoSuchMethod
        [RawTypeOfClass inheritedStaticVM classS, Instance.str "n",
          Instance.smi (inheritedStaticVM.EncodeType Call.kStatic InvType.kMethod),
          Instance.null, Instance.null, Instance.null], emptyHeap) ∧
    ClassMirror_invokeGetter inheritedStaticVM classS "n" emptyHeap =
      (Outcome.thrown ExceptionType.kNoSuchMethod
        [RawTypeOfClass inheritedStaticVM classS, Instance.str "n",
          Instance.smi (inheritedStaticVM.EncodeType Call.kStatic InvType.kGetter),
          Instance.null, Instance.null, Instance.null], emptyHeap) ∧
    ClassMirror_invokeSetter inheritedStaticVM classS "n" (Instance.smi 1) emptyHeap =
      (Outcome.thrown ExceptionType.kNoSuchMethod
        [RawTypeOfClass inheritedStaticVM classS, Instance.str "n",
          Instance.smi (inheritedStaticVM.EncodeType Call.kStatic InvType.kSetter),
          Instance.null, Instance.null, Instance.null], emptyHeap)) :=
  ⟨rfl, by decide, by decide, by decide, by decide,
    static_resolution_own_class inheritedStaticVM classS "n" [] (Instance.smi 1) emptyHeap
      (by decide) (by decide) (by decide) (by decide)⟩

/-- The three leading slots of the descriptor built by `ThrowNoSuchMethod`. -/
theorem ThrowNoSuchMethod_slots (vm : VM) (receiver : Instance) (function_name : String)
    (function : Option Function) (call : Call) (type : InvType) (a : List Instance)
    (h : ThrowNoSuchMethod vm receiver function_name function call type =
      Outcome.thrown ExceptionType.kNoSuchMethod a) :
    a[0]? = some receiver ∧ a[1]? = some (Instance.str function_name) ∧
      a[2]? = some (Instance.smi (vm.EncodeType call type)) := by
  cases function with
  | none =>
    simp only [ThrowNoSuchMethod, Outcome.thrown.injEq, true_and] at h
    subst h
    simp [List.replicate]
  | some f =>
    simp only [ThrowNoSuchMethod, Outcome.thrown.injEq, true_and] at h
    subst h
    simp [List.replicate]

/-- The leading slots of the descriptor raised through the class overload. -/
theorem ThrowNoSuchMethodClass_slots (vm : VM) (klass : Class) (function_name : String)
    (function : Option Function) (call : Call) (type : InvType) (st : Heap)
    (a : List Instance)
    (h : (ThrowNoSuchMethodClass vm klass function_name function call type, st).1 =
      Outcome.thrown ExceptionType.kNoSuchMethod a) :
    a[0]? = some (RawTypeOfClass vm klass) ∧ a[1]? = some (Instance.str function_name) ∧
      a[2]? = some (Instance.smi (vm.EncodeType call type)) :=
  ThrowNoSuchMethod_slots vm (RawTypeOfClass vm klass) function_name function call type a h

/-- The leading slots of the descriptor raised through the library overload. -/
theorem ThrowNoSuchMethodLibrary_slots (vm : VM) (library : Library)
    (function_name : String) (function : Option Function) (call : Call) (type : InvType)
    (st : Heap) (a : List Instance)
    (h : (ThrowNoSuchMethodLibrary vm library function_name function call type, st).1 =
      Outcome.thrown ExceptionType.kNoSuchMethod a) :
    a[0]? = some Instance.null ∧ a[1]? = some (Instance.str function_name) ∧
      a[2]? = some (Instance.smi (vm.EncodeType call type)) :=
  ThrowNoSuchMethod_slots vm Instance.null function_name function call type a h

/-- Counterexample for C22 as stated: the top-level function `missing` does not exist and
the NoSuchMethod raised by `LibraryMirror_invoke` has null in the receiver slot. -/
theorem LibraryMirror_invoke_receiver_counterexample :
    LibraryMirror_invoke emptyVM sampleLibrary "missing" [] emptyHeap =
      (Outcome.thrown ExceptionType.kNoSuchMethod
        [Instance.null, Instance.str "missing", Instance.smi 12,
          Instance.null, Instance.null, Instance.null], emptyHeap) := by
  rfl

/-- C22 (amended): every NoSuchMethod failure raised by a static or constructor entry
point has the finalized raw type of the class in the receiver slot (not null as long as
the type finalizer returns no null), and every one raised by a top-level entry point has
null there. In both cases the name slot holds the name given to the entry point (for the
constructor entry point the internal label) and the third slot the encoding of the
category of that entry point. -/
theorem no_receiver_failure_descriptor (vm : VM) (st : Heap) (a : List Instance) :
    (∀ klass name args,
      (ClassMirror_invoke vm klass name args st).1 =
        Outcome.thrown ExceptionType.kNoSuchMethod a →
      a[0]? = some (RawTypeOfClass vm klass) ∧ a[1]? = some (Instance.str name) ∧
        a[2]? = some (Instance.smi (vm.EncodeType Call.kStatic InvType.kMethod))) ∧
    (∀ klass name,
      (ClassMirror_invokeGetter vm klass name st).1 =
        Outcome.thrown ExceptionType.kNoSuchMethod a →
      a[0]? = some (RawTypeOfClass vm klass) ∧ a[1]? = some (Instance.str name) ∧
        a[2]? = some (Instance.smi (vm.EncodeType Call.kStatic InvType.kGetter))) ∧
    (∀ klass name value,
      (ClassMirror_invokeSetter vm klass name value st).1 =
        Outcome.thrown ExceptionType.kNoSuchMethod a →
      a[0]? = some (RawTypeOfClass vm klass) ∧ a[1]? = some (Instance.str name) ∧
        a[2]? = some (Instance.smi (vm.EncodeType Call.kStatic InvType.kSetter))) ∧
    (∀ klass name args,
      (ClassMirror_invokeConstructor vm klass name args st).1 =
        Outcome.thrown ExceptionType.kNoSuchMethod a →
      a[0]? = some (RawTypeOfClass vm klass) ∧
        a[1]? = some (Instance.str (internalConstructorName klass name)) ∧
        a[2]? = some (Instance.smi (vm.EncodeType Call.kConstructor InvType.kMethod))) ∧
    (∀ library name args,
      (LibraryMirror_invoke vm library name args st).1 =
        Outcome.thrown ExceptionType.kNoSuchMethod a →
      a[0]? = some Instance.null ∧ a[1]? = some (Instance.str name) ∧
        a[2]? = some (Instance.smi (vm.EncodeType Call.kTopLevel InvType.kMethod))) ∧
    (∀ library name,
      (LibraryMirror_invokeGetter vm library name st).1 =
        Outcome.thrown ExceptionType.kNoSuchMethod a →
      a[0]? = some Instance.null ∧ a[1]? = some (Instance.str name) ∧
        a[2]? = some (Instance.smi (vm.EncodeType Call.kTopLevel InvType.kGetter))) ∧
    (∀ library name value,
      (LibraryMirror_invokeSetter vm library name value st).1 =
        Outcome.thrown ExceptionType.kNoSuchMethod a →
      a[0]? = some Instance.null ∧ a[1]? = some (Instance.str name) ∧
        a[2]? = some (Instance.smi (vm.EncodeType Call.kTopLevel InvType.kSetter))) ∧
    ((∀ c t, vm.FinalizeType c t ≠ Instance.null) →
      ∀ klass, RawTypeOfClass vm klass ≠ Instance.null) := by
  refine ⟨?_, ?_, ?_, ?_, ?_, ?_, ?_, ?_⟩
  · intro klass name args h
    unfold ClassMirror_invoke at h
    cases hf : vm.LookupStaticFunctionAllowPrivate klass name with
    | none =>
      simp only [hf] at h
      exact ThrowNoSuchMethod_slots vm _ _ _ _ _ a h
    | some f =>
      simp only [hf] at h
      split at h
      · exact ThrowNoSuchMethodClass_slots vm _ _ _ _ _ st a h
      · exact absurd h (returnOrThrow_ne_noSuchMethod _ a)
  · intro klass name h
    have hvia : (ClassMirror_invokeGetter_viaGetter vm klass name st).1 =
        Outcome.thrown ExceptionType.kNoSuchMethod a →
        a[0]? = some (RawTypeOfClass vm klass) ∧ a[1]? = some (Instance.str name) ∧
          a[2]? = some (Instance.smi (vm.EncodeType Call.kStatic InvType.kGetter)) := by
      intro hv
      unfold ClassMirror_invokeGetter_viaGetter at hv
      cases hg : vm.LookupStaticFunctionAllowPrivate klass (vm.GetterName name) with
      | none =>
        simp only [hg] at hv
        exact ThrowNoSuchMethod_slots vm _ _ _ _ _ a hv
      | some g =>
        simp only [hg] at hv
        exact absurd hv (returnOrThrow_ne_noSuchMethod _ a)
    unfold ClassMirror_invokeGetter at h
    cases hf : vm.LookupStaticField klass name with
    | none =>
      simp only [hf] at h
      exact hvia h
    | some field =>
      simp only [hf] at h
      split at h
      · exact hvia h
      · simp at h
  · intro klass name value h
    unfold ClassMirror_invokeSetter at h
    cases hf : vm.LookupStaticField klass name with
    | none =>
      simp only [hf] at h
      cases hs : vm.LookupStaticFunctionAllowPrivate klass (vm.SetterName name) with
      | none =>
        simp only [hs] at h
        exact ThrowNoSuchMethod_slots vm _ _ _ _ _ a h
      | some setter =>
        simp only [hs] at h
        exact absurd h (returnOrThrow_ne_noSuchMethod _ a)
    | some field =>
      simp only [hf] at h
      split at h
      · simp [ThrowMirroredCompilationError] at h
      · simp at h
  · intro klass name args h
    unfold ClassMirror_invokeConstructor at h
    cases hf : vm.LookupFunctionAllowPrivate klass (internalConstructorName klass name) with
    | none =>
      simp only [hf] at h
      exact ThrowNoSuchMethod_slots vm _ _ _ _ _ a h
    | some c =>
      simp only [hf] at h
      split at h
      · exact ThrowNoSuchMethodClass_slots vm _ _ _ _ _ st a h
      · exact absurd h (returnOrThrow_ne_noSuchMethod _ a)
  · intro library name args h
    unfold LibraryMirror_invoke at h
    simp only at h
    split at h
    · simp [ThrowMirroredCompilationError] at h
    · exact ThrowNoSuchMethodLibrary_slots vm _ _ _ _ _ st a h
    · split at h
      · exact ThrowNoSuchMethodLibrary_slots vm _ _ _ _ _ st a h
      · exact absurd h (returnOrThrow_ne_noSuchMethod _ a)
  · intro library name h
    unfold LibraryMirror_invokeGetter at h
    simp only at h
    split at h
    · exact absurd h (returnOrThrow_ne_noSuchMethod _ a)
    · split at h
      · simp at h
      · split at h
        · exact ThrowNoSuchMethodLibrary_slots vm _ _ _ _ _ st a h
        · simp [ThrowMirroredCompilationError] at h
  · intro library name value h
    unfold LibraryMirror_invokeSetter at h
    simp only at h
    split at h
    · split at h
      · split at h
        · exact ThrowNoSuchMethodLibrary_slots vm _ _ _ _ _ st a h
        · simp [ThrowMirroredCompilationError] at h
      · exact absurd h (returnOrThrow_ne_noSuchMethod _ a)
    · simp at h
    · split at h
      · simp [ThrowMirroredCompilationError] at h
      · simp at h
  · intro hfin klass
    exact hfin _ _

/-- Witness for C22 (amended): a failed static call on `A` and a failed top-level call. -/
theorem no_receiver_failure_descriptor_witness :
    ([Instance.type classA, Instance.str "missing", Instance.smi 4,
        Instance.null, Instance.null, Instance.null][0]? =
          some (RawTypeOfClass emptyVM classA) ∧
      [Instance.type classA, Instance.str "missing", Instance.smi 4,
        Instance.null, Instance.null, Instance.null][1]? = some (Instance.str "missing") ∧
      [Instance.type classA, Instance.str "missing", Instance.smi 4,
        Instance.null, Instance.null, Instance.null][2]? =
          some (Instance.smi (emptyVM.EncodeType Call.kStatic InvType.kMethod))) ∧
    ([Instance.null, Instance.str "missing", Instance.smi 12,
        Instance.null, Instance.null, Instance.null][0]? = some Instance.null ∧
      [Instance.null, Instance.str "missing", Instance.smi 12,
        Instance.null, Instance.null, Instance.null][1]? = some (Instance.str "missing") ∧
      [Instance.null, Instance.str "missing", Instance.smi 12,
        Instance.null, Instance.null, Instance.null][2]? =
          some (Instance.smi (emptyVM.EncodeType Call.kTopLevel InvType.kMethod))) :=
  ⟨(no_receiver_failure_descriptor emptyVM emptyHeap
      [Instance.type classA, Instance.str "missing", Instance.smi 4,
        Instance.null, Instance.null, Instance.null]).1 classA "missing" [] rfl,
    (no_receiver_failure_descriptor emptyVM emptyHeap
      [Instance.null, Instance.str "missing", Instance.smi 12,
        Instance.null, Instance.null, Instance.null]).2.2.2.2.1 sampleLibrary "missing" []
      rfl⟩

/-- The test of the setter loop holds exactly for a non-null final field. -/
theorem isNonNullFinal_iff (field : Option Field) :
    isNonNullFinal field = true ↔ ∃ f, field = some f ∧ f.is_final = true := by
  cases field with
  | none => simp [isNonNullFinal]
  | some f => simp [isNonNullFinal]

/-- The setter loop leaves through the final-field error exactly when a class with a
final field of the name comes before, or is, the first class with the setter function. -/
theorem LookupSetterInChain_final_iff (vm : VM) (setter_name internal_setter_name : String) :
    ∀ k : Class,
      LookupSetterInChain vm setter_name internal_setter_name k = SetterLookup.finalField ↔
      ∃ pre C post, k.chain = pre ++ C :: post ∧
        (∃ f, vm.LookupInstanceField C setter_name = some f ∧ f.is_final = true) ∧
        ∀ c ∈ pre, vm.LookupDynamicFunctionAllowPrivate c internal_setter_name = none := by
  intro k
  induction k with
  | null =>
    constructor
    · intro h
      simp [LookupSetterInChain] at h
    · rintro ⟨pre, C, post, hchain, _, _⟩
      simp [Class.chain] at hchain
  | mk r n s ih =>
    unfold LookupSetterInChain
    by_cases hfin : isNonNullFinal (vm.LookupInstanceField (Class.mk r n s) setter_name) = true
    · simp only [hfin, if_true, true_iff]
      exact ⟨[], Class.mk r n s, s.chain, by simp [Class.chain],
        (isNonNullFinal_iff _).1 hfin, by simp⟩
    · simp only [hfin, if_false]
      cases hl : vm.LookupDynamicFunctionAllowPrivate (Class.mk r n s) internal_setter_name with
      | some f =>
        constructor
        · intro h
          simp at h
        · rintro ⟨pre, C, post, hchain, hC, hpre⟩
          cases pre with
          | nil =>
            simp only [Class.chain, List.nil_append, List.cons.injEq] at hchain
            rw [← hchain.1] at hC
            exact absurd ((isNonNullFinal_iff _).2 hC) hfin
          | cons p pre' =>
            simp only [Class.chain, List.cons_append, List.cons.injEq] at hchain
            have hp := hpre p (by simp)
            rw [← hchain.1, hl] at hp
            simp at hp
      | none =>
        simp only [Bool.false_eq_true, if_false]
        rw [ih]
        constructor
        · rintro ⟨pre, C, post, hchain, hC, hpre⟩
          refine ⟨Class.mk r n s :: pre, C, post, by simp [Class.chain, hchain], hC, ?_⟩
          intro c hc
          rcases List.mem_cons.1 hc with h | h
          · rw [h]
            exact hl
          · exact hpre c h
        · rintro ⟨pre, C, post, hchain, hC, hpre⟩
          cases pre with
          | nil =>
            simp only [Class.chain, List.nil_append, List.cons.injEq] at hchain
            rw [← hchain.1] at hC
            exact absurd ((isNonNullFinal_iff _).2 hC) hfin
          | cons p pre' =>
            simp only [Class.chain, List.cons_append, List.cons.injEq] at hchain
            exact ⟨pre', C, post, hchain.2, hC, fun c hc => hpre c (by simp [hc])⟩

/-- When the setter loop does not leave through the final-field error it ends with the
setter found by the plain superclass walk. -/
theorem LookupSetterInChain_setter (vm : VM) (setter_name internal_setter_name : String) :
    ∀ k : Class,
      LookupSetterInChain vm setter_name internal_setter_name k ≠ SetterLookup.finalField →
      LookupSetterInChain vm setter_name internal_setter_name k =
        SetterLookup.setter (LookupDynamicFunctionInChain vm internal_setter_name k) := by
  intro k
  induction k with
  | null =>
    intro _
    simp [LookupSetterInChain, LookupDynamicFunctionInChain]
  | mk r n s ih =>
    intro hne
    unfold LookupSetterInChain at hne ⊢
    unfold LookupDynamicFunctionInChain
    by_cases hfin : isNonNullFinal (vm.LookupInstanceField (Class.mk r n s) setter_name) = true
    · simp [hfin] at hne
    · simp only [hfin, if_false] at hne ⊢
      cases hl : vm.LookupDynamicFunctionAllowPrivate (Class.mk r n s) internal_setter_name with
      | some f => simp
      | none =>
        simp only [hl] at hne
        simpa using ih hne

/-- The superclass walk finds nothing when no class of the chain declares the name. -/
theorem LookupDynamicFunctionInChain_none (vm : VM) (function_name : String) :
    ∀ k : Class,
      k.chain.find? (fun c => (vm.LookupDynamicFunctionAllowPrivate c function_name).isSome)
        = none →
      LookupDynamicFunctionInChain vm function_name k = none := by
  intro k
  induction k with
  | null =>
    intro _
    simp [LookupDynamicFunctionInChain]
  | mk r n s ih =>
    intro hfind
    unfold LookupDynamicFunctionInChain
    cases hl : vm.LookupDynamicFunctionAllowPrivate (Class.mk r n s) function_name with
    | some g =>
      simp [Class.chain, List.find?_cons, hl] at hfind
    | none =>
      simp only [Class.chain, List.find?_cons, hl, Option.isSome_none] at hfind
      simpa using ih hfind

/-- The invoking helper always calls the engine, so it never leaves the state as it was. -/
theorem ReflectivelyInvokeDynamicFunction_state_ne (vm : VM) (receiver : Instance)
    (function : Option Function) (target_name : String) (arguments : List Instance)
    (st : Heap) :
    (ReflectivelyInvokeDynamicFunction vm receiver function target_name arguments st).2
      ≠ st := by
  intro h
  have hlen := congrArg (fun s => s.log.length) h
  cases function <;>
    simp [ReflectivelyInvokeDynamicFunction, DartEntry.InvokeFunction,
      DartEntry.InvokeNoSuchMethod] at hlen

/-- C23: `InstanceMirror_invokeSetter` raises the final-field error (state unchanged)
exactly when, on the chain from the class of the receiver upwards, a class with a final
instance field of the name is reached while no earlier class declares the setter function.
Otherwise it hands the first setter function of the chain, with the arguments receiver
and value, to the invoking helper: that setter is invoked, or, when no class declares one,
the no-such-method fallback is called with the mangled setter name. -/
theorem InstanceMirror_invokeSetter_resolution (vm : VM) (reflectee : Instance)
    (setter_name : String) (value : Instance) (st : Heap) :
    (InstanceMirror_invokeSetter vm reflectee setter_name value st =
        (Outcome.thrown ExceptionType.kMirroredCompilationError
          [Instance.str (cannotSetFinalField "InstanceMirror_invokeSetter" setter_name)], st) ↔
      ∃ pre C post, (vm.clazz reflectee).chain = pre ++ C :: post ∧
        (∃ f, vm.LookupInstanceField C setter_name = some f ∧ f.is_final = true) ∧
        ∀ c ∈ pre, vm.LookupDynamicFunctionAllowPrivate c (vm.SetterName setter_name) = none) ∧
    ((¬ ∃ pre C post, (vm.clazz reflectee).chain = pre ++ C :: post ∧
        (∃ f, vm.LookupInstanceField C setter_name = some f ∧ f.is_final = true) ∧
        ∀ c ∈ pre, vm.LookupDynamicFunctionAllowPrivate c (vm.SetterName setter_name) = none) →
      InstanceMirror_invokeSetter vm reflectee setter_name value st =
        ReflectivelyInvokeDynamicFunction vm reflectee
          (LookupDynamicFunctionInChain vm (vm.SetterName setter_name) (vm.clazz reflectee))
          (vm.SetterName setter_name) [reflectee, value] st ∧
      (∀ C f, (vm.clazz reflectee).chain.find?
          (fun c => (vm.LookupDynamicFunctionAllowPrivate c
            (vm.SetterName setter_name)).isSome) = some C →
        vm.LookupDynamicFunctionAllowPrivate C (vm.SetterName setter_name) = some f →
        InstanceMirror_invokeSetter vm reflectee setter_name value st =
          (returnOrThrow (vm.InvokeFunction f [reflectee, value] st.value).1,
            Heap.mk (vm.InvokeFunction f [reflectee, value] st.value).2
              (st.log ++ [Event.InvokeFunction f [reflectee, value]]))) ∧
      ((vm.clazz reflectee).chain.find?
          (fun c => (vm.LookupDynamicFunctionAllowPrivate c
            (vm.SetterName setter_name)).isSome) = none →
        InstanceMirror_invokeSetter vm reflectee setter_name value st =
          (returnOrThrow (vm.InvokeNoSuchMethod reflectee (vm.SetterName setter_name)
              [reflectee, value] (ArgumentsDescriptor.New 2) st.value).1,
            Heap.mk (vm.InvokeNoSuchMethod reflectee (vm.SetterName setter_name)
              [reflectee, value] (ArgumentsDescriptor.New 2) st.value).2
              (st.log ++ [Event.InvokeNoSuchMethod reflectee (vm.SetterName setter_name)
                [reflectee, value] (ArgumentsDescriptor.New 2)])))) := by
  have hiff := LookupSetterInChain_final_iff vm setter_name (vm.SetterName setter_name)
    (vm.clazz reflectee)
  have hother : LookupSetterInChain vm setter_name (vm.SetterName setter_name)
      (vm.clazz reflectee) ≠ SetterLookup.finalField →
      InstanceMirror_invokeSetter vm reflectee setter_name value st =
        ReflectivelyInvokeDynamicFunction vm reflectee
          (LookupDynamicFunctionInChain vm (vm.SetterName setter_name) (vm.clazz reflectee))
          (vm.SetterName setter_name) [reflectee, value] st := by
    intro hne
    unfold InstanceMirror_invokeSetter
    simp only [LookupSetterInChain_setter vm setter_name (vm.SetterName setter_name)
      (vm.clazz reflectee) hne]
    rfl
  constructor
  · constructor
    · intro hres
      by_cases hfin : LookupSetterInChain vm setter_name (vm.SetterName setter_name)
          (vm.clazz reflectee) = SetterLookup.finalField
      · exact hiff.1 hfin
      · rw [hother hfin] at hres
        exact absurd (congrArg Prod.snd hres)
          (ReflectivelyInvokeDynamicFunction_state_ne vm _ _ _ _ st)
    · intro hcond
      have hfin := hiff.2 hcond
      unfold InstanceMirror_invokeSetter
      simp only [hfin]
      rfl
  · intro hcond
    have hne : LookupSetterInChain vm setter_name (vm.SetterName setter_name)
        (vm.clazz reflectee) ≠ SetterLookup.finalField := fun h => hcond (hiff.1 h)
    refine ⟨hother hne, ?_, ?_⟩
    · intro C f hfind hf
      rw [hother hne, LookupDynamicFunctionInChain_find vm _ _ C f hfind hf]
      rfl
    · intro hfind
      rw [hother hne, LookupDynamicFunctionInChain_none vm _ _ hfind]
      rfl

/-- Witness for C23: a final field of `S` shadows the setter declared in `S`, and a setter
declared in `S` shadows the final field of its superclass `B`. -/
theorem InstanceMirror_invokeSetter_resolution_witness :
    InstanceMirror_invokeSetter fieldShadowsVM (Instance.obj 50) "x" (Instance.smi 1)
        emptyHeap =
      (Outcome.thrown ExceptionType.kMirroredCompilationError
        [Instance.str (cannotSetFinalField "InstanceMirror_invokeSetter" "x")], emptyHeap) ∧
    setterShadowsVM.LookupInstanceField classB "x" = some finalFieldBx ∧
    InstanceMirror_invokeSetter setterShadowsVM (Instance.obj 50) "x" (Instance.smi 1)
        emptyHeap =
      (returnOrThrow (setterShadowsVM.InvokeFunction setterSx
          [Instance.obj 50, Instance.smi 1] emptyHeap.value).1,
        Heap.mk (setterShadowsVM.InvokeFunction setterSx
          [Instance.obj 50, Instance.smi 1] emptyHeap.value).2
          (emptyHeap.log ++
            [Event.InvokeFunction setterSx [Instance.obj 50, Instance.smi 1]])) :=
  ⟨(InstanceMirror_invokeSetter_resolution fieldShadowsVM (Instance.obj 50) "x"
      (Instance.smi 1) emptyHeap).1.2
      ⟨[], classS, [classB], by rfl, ⟨finalFieldSx, by decide, by decide⟩, by simp⟩,
    by decide,
    ((InstanceMirror_invokeSetter_resolution setterShadowsVM (Instance.obj 50) "x"
      (Instance.smi 1) emptyHeap).2
      (by
        rintro ⟨pre, C, post, hchain, ⟨f, hf, _⟩, hpre⟩
        have hc : (setterShadowsVM.clazz (Instance.obj 50)).chain = [classS, classB] := rfl
        rw [hc] at hchain
        cases pre with
        | nil =>
          simp only [List.nil_append, List.cons.injEq] at hchain
          have hnone : setterShadowsVM.LookupInstanceField classS "x" = none := by decide
          rw [← hchain.1, hnone] at hf
          exact Option.noConfusion hf
        | cons p pre' =>
          simp only [List.cons_append, List.cons.injEq] at hchain
          have hp := hpre p (by simp)
          rw [← hchain.1] at hp
          exact absurd hp (by decide))).2.1 classS setterSx (by decide) (by decide)⟩

/-- A loop that adds one mirror per element adds them in order; the mirror of the element
at index `i` is the one numbered `i` after those already present. -/
theorem foldl_add_enumFrom {α : Type} (mk : Nat → α → Instance) :
    ∀ (l : List α) (acc : List Instance),
      l.foldl (fun mirrors x => mirrors ++ [mk mirrors.length x]) acc =
        acc ++ (l.enumFrom acc.length).map (fun p => mk p.1 p.2) := by
  intro l
  induction l with
  | nil =>
    intro acc
    simp
  | cons x xs ih =>
    intro acc
    simp only [List.foldl_cons, ih, List.length_append, List.length_singleton,
      List.enumFrom_cons, List.map_cons, List.append_assoc, List.singleton_append]

/-- A loop that adds a mirror only for the elements passing a test is the adding loop over
the filtered list. -/
theorem foldl_add_filter {α : Type} (p : α → Bool) (mk : Nat → α → Instance) :
    ∀ (l : List α) (acc : List Instance),
      l.foldl (fun mirrors x => if p x then mirrors ++ [mk mirrors.length x] else mirrors) acc =
        (l.filter p).foldl (fun mirrors x => mirrors ++ [mk mirrors.length x]) acc := by
  intro l
  induction l with
  | nil =>
    intro acc
    simp
  | cons x xs ih =>
    intro acc
    by_cases hp : p x = true
    · simp [List.foldl_cons, List.filter_cons, hp, ih]
    · simp [List.foldl_cons, List.filter_cons, hp, ih]

/-- The method mirrors added by the function loop, in closed form. -/
theorem addMethodMirrors_eq (addr : Nat → RawObject) (owner_mirror : Instance)
    (kindTest : Function → Bool) (functions : List Function) (mirrors : List Instance) :
    addMethodMirrors addr owner_mirror kindTest functions mirrors =
      mirrors ++ ((functions.filter kindTest).enumFrom mirrors.length).map
        (fun p => CreateMethodMirror (addr p.1) p.2 owner_mirror) := by
  unfold addMethodMirrors
  rw [foldl_add_filter kindTest (fun j func => CreateMethodMirror (addr j) func owner_mirror),
    foldl_add_enumFrom (fun j func => CreateMethodMirror (addr j) func owner_mirror)]

/-- The variable mirrors added by the field loop, in closed form. -/
theorem addVariableMirrors_eq (vm : VM) (addr : Nat → RawObject) (owner_mirror : Instance)
    (fields : List Field) (mirrors : List Instance) :
    addVariableMirrors vm addr owner_mirror fields mirrors =
      mirrors ++ (fields.enumFrom mirrors.length).map
        (fun p => CreateVariableMirror vm (addr p.1) p.2 owner_mirror) := by
  unfold addVariableMirrors
  rw [foldl_add_enumFrom (fun j field => CreateVariableMirror vm (addr j) field owner_mirror)]

/-- C24: for a finalized class with field list `F` and function list `G`,
`ClassMirror_members` returns the variable mirrors of the fields of `F` in order followed
by the method mirrors of the functions of `G` whose kind is regular, getter or setter, in
order, and `ClassMirror_constructors` returns the method mirrors of the functions of `G`
whose kind is constructor, in order. No function passes both kind tests, and every mirror
is built with the owner mirror passed in, which it holds in slot 2. -/
theorem ClassMirror_members_constructors (vm : VM) (addr : Nat → RawObject)
    (owner_mirror : Instance) (klass : Class) (F : List Field) (G : List Function)
    (hfinalized : vm.EnsureIsFinalized klass = none)
    (hF : vm.fields klass = some F) (hG : vm.functions klass = some G) :
    ClassMirror_members vm addr owner_mirror klass =
      Outcome.returned (Instance.array
        ((F.enumFrom 0).map (fun p => CreateVariableMirror vm (addr p.1) p.2 owner_mirror) ++
          ((G.filter isMemberKind).enumFrom F.length).map
            (fun p => CreateMethodMirror (addr p.1) p.2 owner_mirror))) ∧
    ClassMirror_constructors vm addr owner_mirror klass =
      Outcome.returned (Instance.array
        (((G.filter isConstructorKind).enumFrom 0).map
          (fun p => CreateMethodMirror (addr p.1) p.2 owner_mirror))) ∧
    (∀ g, g ∈ G.filter isMemberKind ↔
      g ∈ G ∧ (g.kind = FunctionKind.kRegularFunction ∨ g.kind = FunctionKind.kGetterFunction ∨
        g.kind = FunctionKind.kSetterFunction)) ∧
    (∀ g, g ∈ G.filter isConstructorKind ↔ g ∈ G ∧ g.kind = FunctionKind.kConstructor) ∧
    (∀ g, ¬ (g ∈ G.filter isMemberKind ∧ g ∈ G.filter isConstructorKind)) ∧
    (∀ a field, ∃ args, CreateVariableMirror vm a field owner_mirror =
        Instance.mirror Symbols._LocalVariableMirrorImpl args ∧
      args[0]? = some (Instance.mirrorReference
        (MirrorReference.New a (Declaration.ofField field))) ∧
      args[2]? = some owner_mirror) ∧
    (∀ a func, ∃ args, CreateMethodMirror a func owner_mirror =
        Instance.mirror Symbols._LocalMethodMirrorImpl args ∧
      args[0]? = some (Instance.mirrorReference
        (MirrorReference.New a (Declaration.ofFunction func))) ∧
      args[2]? = some owner_mirror) := by
  have hmember : ∀ g, g ∈ G.filter isMemberKind ↔
      g ∈ G ∧ (g.kind = FunctionKind.kRegularFunction ∨ g.kind = FunctionKind.kGetterFunction ∨
        g.kind = FunctionKind.kSetterFunction) := by
    intro g
    simp [List.mem_filter, isMemberKind, or_assoc]
  have hctor : ∀ g, g ∈ G.filter isConstructorKind ↔
      g ∈ G ∧ g.kind = FunctionKind.kConstructor := by
    intro g
    simp [List.mem_filter, isConstructorKind]
  refine ⟨?_, ?_, hmember, hctor, ?_, ?_, ?_⟩
  · simp only [ClassMirror_members, hfinalized, hF, hG, addVariableMirrors_eq,
      addMethodMirrors_eq, List.nil_append, List.length_nil, List.length_map,
      List.enumFrom_length]
  · simp only [ClassMirror_constructors, hfinalized, hG, addMethodMirrors_eq,
      List.nil_append, List.length_nil]
  · rintro g ⟨h1, h2⟩
    have hk := ((hctor g).1 h2).2
    rcases ((hmember g).1 h1).2 with h | h | h <;> rw [hk] at h <;> exact absurd h (by decide)
  · intro a field
    refine ⟨_, rfl, ?_, ?_⟩ <;> simp [List.replicate]
  · intro a func
    refine ⟨_, rfl, ?_, ?_⟩ <;> simp [List.replicate]

/-- Witness for C24: the class `A` with the fields `x`, `s` and the functions `g`, the
constructor `A.`, the implicit getter of `u` and the setter of `x`. -/
theorem ClassMirror_members_constructors_witness :
    ClassMirror_members memberVM (fun j => 200 + j) (Instance.obj 9) classA =
      Outcome.returned (Instance.array
        [CreateVariableMirror memberVM 200 finalFieldX (Instance.obj 9),
          CreateVariableMirror memberVM 201 finalFieldS (Instance.obj 9),
          CreateMethodMirror 202 staticAg (Instance.obj 9),
          CreateMethodMirror 203 setterSx (Instance.obj 9)]) ∧
    ClassMirror_constructors memberVM (fun j => 200 + j) (Instance.obj 9) classA =
      Outcome.returned (Instance.array [CreateMethodMirror 200 constructorA (Instance.obj 9)]) :=
  ⟨(ClassMirror_members_constructors memberVM (fun j => 200 + j) (Instance.obj 9) classA
      [finalFieldX, finalFieldS] [staticAg, constructorA, getterU, setterSx]
      rfl (by decide) (by decide)).1,
    (ClassMirror_members_constructors memberVM (fun j => 200 + j) (Instance.obj 9) classA
      [finalFieldX, finalFieldS] [staticAg, constructorA, getterU, setterSx]
      rfl (by decide) (by decide)).2.1⟩

end Mirrors
